import Mathlib

/-
Verification of the FFI boundary layer of the Rust-OpenCV repository.

The repository consists of mechanically generated extern entry points
(src/bindings/cpp/opencv_32/ximgproc.cpp and src/unnamed/part_000), each of which
forwards its arguments to one native OpenCV operation inside a try block, wraps a
normal return in the Ok arm of a result envelope, and converts a thrown exception
into the Err arm via the OCVRS_CATCH macro.  The result envelope and the catch
macro are defined in common.hpp, which both files include but which is not part of
the sources here; those two pieces are modelled from the specification.  The native
operations live in the wrapped OpenCV library, which the layer treats as opaque;
they are therefore passed to each embedded entry point as explicit behaviour
parameters, except where the specification itself fixes their behaviour.

Machine floating-point values (float, double) are only ever copied by this layer -
field reads, field writes, by-value returns - never computed with, so they are
embedded as uninterpreted scalars with decidable equality.
-/

set_option maxRecDepth 10000

namespace RustOpenCV

/-- Modelled from the spec: common.hpp (included by both source files, not under src/)
captures a thrown native exception as a numeric code plus the human-readable message
text (spec section 7: a single generic error kind carrying the native exception's
message text and, where available, a numeric code). -/
structure CvException where
  code : Int
  msg : String
deriving DecidableEq

/-- Modelled from the spec: common.hpp (not under src/) defines the result envelope
returned by every guarded entry point: a tagged union of a success value and an error
record, where the error record carries a stable classification code plus the message
captured from the native exception (spec section 3, Result envelope). -/
inductive Result (α : Type) where
  | Ok : α → Result α
  | Err : (code : Int) → (msg : String) → Result α
deriving DecidableEq

/-- Modelled from the spec: Result_void from common.hpp is the envelope for
void-returning operations, whose payload type is the unit type. -/
abbrev Result_void := Result Unit

/-- Modelled from the spec: the OCVRS_CATCH macro from common.hpp (not under src/)
intercepts the exception thrown by the native call at the boundary and converts it
into the error arm of the envelope, carrying the captured code and message; it never
rethrows, so no exception crosses back to the caller (spec section 4.1, failure path). -/
def OCVRS_CATCH (α : Type) (e : CvException) : Result α :=
  Result.Err e.code e.msg

/-- A result envelope is success-tagged. -/
def Result.isOk {α : Type} : Result α → Bool
  | .Ok _ => true
  | .Err _ _ => false

/-- A result envelope is error-tagged. -/
def Result.isErr {α : Type} : Result α → Bool
  | .Ok _ => false
  | .Err _ _ => true

/-- Outcome of invoking one native operation: either a normal return carrying the
C++ return value together with the final state of the by-reference output
parameters, or a thrown exception together with whatever state the native call left
the outputs in (the boundary performs no rollback; spec section 4.1, side effects). -/
inductive NativeOutcome (α : Type) (σ : Type) where
  | ret : α → σ → NativeOutcome α σ
  | thr : CvException → σ → NativeOutcome α σ

/-- A machine float crossing the boundary, embedded as an uninterpreted scalar
(the layer only copies such values, never computes with them). -/
structure CFloat where
  bits : Int
deriving DecidableEq

/-- A machine double crossing the boundary, embedded as an uninterpreted scalar. -/
structure CDouble where
  bits : Int
deriving DecidableEq

/-- cv::Mat as seen by this layer: an opaque image forwarded without inspection.
Only its emptiness is ever observable in the properties below; an empty image has
no rows and no columns. -/
structure Mat where
  rows : Nat
  cols : Nat
deriving DecidableEq

/-- The empty image. -/
def Mat.empty : Mat := ⟨0, 0⟩

/-- cv::Scalar: a plain four-component value struct copied by value across the
boundary (spec section 3, plain value structs). -/
structure Scalar where
  v0 : CDouble
  v1 : CDouble
  v2 : CDouble
  v3 : CDouble
deriving DecidableEq

/-- cv::Point2f: a plain value struct of two float coordinates. -/
structure Point2f where
  x : CFloat
  y : CFloat
deriving DecidableEq

/-- cv::Rect: a plain value struct copied by value across the boundary. -/
structure Rect where
  x : Int
  y : Int
  width : Int
  height : Int
deriving DecidableEq

/-- Heap of owned native objects of one type handed across the boundary.  A handle
is the index of its allocation; an allocation appends a live cell, and deletion
clears the cell.  The null pointer is represented by the none value of an optional
handle argument. -/
abbrev HHeap (α : Type) : Type := List (Option α)

/-- Allocate a fresh owned cell holding v; returns the new handle and heap.  This is
the model of a new-expression whose result is returned to the caller. -/
def HHeap.alloc {α : Type} (h : HHeap α) (v : α) : Nat × HHeap α :=
  (h.length, h ++ [some v])

/-- Look up the object a handle refers to; none for a never-allocated or deleted
handle. -/
def HHeap.get {α : Type} (h : HHeap α) (p : Nat) : Option α :=
  (List.get? h p).join

/-- C++ delete-expression semantics at the boundary: deleting the null pointer is
defined by the language to do nothing, and deleting a valid handle releases its
cell.  (Double deletion or deletion of a foreign handle is undefined behaviour in
the source; the model makes it clear the cell simply ends up empty.) -/
def cppDelete {α : Type} (h : HHeap α) (p : Option Nat) : HHeap α :=
  match p with
  | none => h
  | some i => h.set i none

/-- cv::line_descriptor::BinaryDescriptor::Params: exactly the fields this layer
exposes through its getProp/setProp accessor entry points in src/unnamed/part_000
(lines 149-203). -/
structure Params where
  numOfOctave_ : Int
  widthOfBand_ : Int
  reductionRatio : Int
  ksize_ : Int
deriving DecidableEq

/-- cv::line_descriptor::KeyLine: exactly the fields this layer exposes through its
getProp/setProp accessor entry points in src/unnamed/part_000 (lines 312-534). -/
structure KeyLine where
  angle : CFloat
  class_id : Int
  octave : Int
  pt : Point2f
  response : CFloat
  size : CFloat
  startPointX : CFloat
  startPointY : CFloat
  endPointX : CFloat
  endPointY : CFloat
  sPointInOctaveX : CFloat
  sPointInOctaveY : CFloat
  ePointInOctaveX : CFloat
  ePointInOctaveY : CFloat
  lineLength : CFloat
  numOfPixels : Int
deriving DecidableEq

/-- cv::line_descriptor::BinaryDescriptor as held behind a handle: its detection
parameters; everything else about the native object is opaque to this layer. -/
structure BinaryDescriptor where
  params : Params
deriving DecidableEq

/-- cv::line_descriptor::LSDDetector behind a handle: opaque to this layer. -/
structure LSDDetector where
  token : Unit
deriving DecidableEq

/-- cv::line_descriptor::BinaryDescriptorMatcher behind a handle: opaque to this
layer. -/
structure BinaryDescriptorMatcher where
  token : Unit
deriving DecidableEq

/-- cv::line_descriptor::DrawLinesMatchesFlags behind a handle: opaque to this
layer. -/
structure DrawLinesMatchesFlags where
  token : Unit
deriving DecidableEq

/-
Direct-field accessor entry points of src/unnamed/part_000.

Each getter body is `T ret = inst->field; return Ok(ret);` inside the try block, and
each setter body is `inst->field = val; return Ok();`.  A plain field read or write
on a valid (dereferenceable, correctly typed) object cannot throw in C++, so inside
the guarded region of these accessors there is no throwing operation and the
OCVRS_CATCH branch has no source of exceptions; the embeddings therefore take the
pointee of a valid non-null handle (validity is assumed by the layer, spec section
4.1) and return the envelope together with the object state after the call.
-/

/-- Embeds cv_line_descriptor_BinaryDescriptor_Params_getPropNumOfOctave__const
(src/unnamed/part_000:149). -/
def cv_line_descriptor_BinaryDescriptor_Params_getPropNumOfOctave__const
    (inst : Params) : Result Int × Params :=
  (Result.Ok inst.numOfOctave_, inst)

/-- Embeds cv_line_descriptor_BinaryDescriptor_Params_setPropNumOfOctave__int
(src/unnamed/part_000:156). -/
def cv_line_descriptor_BinaryDescriptor_Params_setPropNumOfOctave__int
    (inst : Params) (val : Int) : Result_void × Params :=
  (Result.Ok (), { inst with numOfOctave_ := val })

/-- Embeds cv_line_descriptor_BinaryDescriptor_Params_getPropWidthOfBand__const
(src/unnamed/part_000:163). -/
def cv_line_descriptor_BinaryDescriptor_Params_getPropWidthOfBand__const
    (inst : Params) : Result Int × Params :=
  (Result.Ok inst.widthOfBand_, inst)

/-- Embeds cv_line_descriptor_BinaryDescriptor_Params_setPropWidthOfBand__int
(src/unnamed/part_000:170). -/
def cv_line_descriptor_BinaryDescriptor_Params_setPropWidthOfBand__int
    (inst : Params) (val : Int) : Result_void × Params :=
  (Result.Ok (), { inst with widthOfBand_ := val })

/-- Embeds cv_line_descriptor_BinaryDescriptor_Params_getPropReductionRatio_const
(src/unnamed/part_000:177). -/
def cv_line_descriptor_BinaryDescriptor_Params_getPropReductionRatio_const
    (inst : Params) : Result Int × Params :=
  (Result.Ok inst.reductionRatio, inst)

/-- Embeds cv_line_descriptor_BinaryDescriptor_Params_setPropReductionRatio_int
(src/unnamed/part_000:184). -/
def cv_line_descriptor_BinaryDescriptor_Params_setPropReductionRatio_int
    (inst : Params) (val : Int) : Result_void × Params :=
  (Result.Ok (), { inst with reductionRatio := val })

/-- Embeds cv_line_descriptor_BinaryDescriptor_Params_getPropKsize__const
(src/unnamed/part_000:191). -/
def cv_line_descriptor_BinaryDescriptor_Params_getPropKsize__const
    (inst : Params) : Result Int × Params :=
  (Result.Ok inst.ksize_, inst)

/-- Embeds cv_line_descriptor_BinaryDescriptor_Params_setPropKsize__int
(src/unnamed/part_000:198). -/
def cv_line_descriptor_BinaryDescriptor_Params_setPropKsize__int
    (inst : Params) (val : Int) : Result_void × Params :=
  (Result.Ok (), { inst with ksize_ := val })

/-- Embeds cv_line_descriptor_KeyLine_getPropAngle_const
(src/unnamed/part_000:312). -/
def cv_line_descriptor_KeyLine_getPropAngle_const
    (inst : KeyLine) : Result CFloat × KeyLine :=
  (Result.Ok inst.angle, inst)

/-- Embeds cv_line_descriptor_KeyLine_setPropAngle_float
(src/unnamed/part_000:319). -/
def cv_line_descriptor_KeyLine_setPropAngle_float
    (inst : KeyLine) (val : CFloat) : Result_void × KeyLine :=
  (Result.Ok (), { inst with angle := val })

/-- Embeds cv_line_descriptor_KeyLine_getPropClass_id_const
(src/unnamed/part_000:326). -/
def cv_line_descriptor_KeyLine_getPropClass_id_const
    (inst : KeyLine) : Result Int × KeyLine :=
  (Result.Ok inst.class_id, inst)

/-- Embeds cv_line_descriptor_KeyLine_setPropClass_id_int
(src/unnamed/part_000:333). -/
def cv_line_descriptor_KeyLine_setPropClass_id_int
    (inst : KeyLine) (val : Int) : Result_void × KeyLine :=
  (Result.Ok (), { inst with class_id := val })

/-- Embeds cv_line_descriptor_KeyLine_getPropOctave_const
(src/unnamed/part_000:340). -/
def cv_line_descriptor_KeyLine_getPropOctave_const
    (inst : KeyLine) : Result Int × KeyLine :=
  (Result.Ok inst.octave, inst)

/-- Embeds cv_line_descriptor_KeyLine_setPropOctave_int
(src/unnamed/part_000:347). -/
def cv_line_descriptor_KeyLine_setPropOctave_int
    (inst : KeyLine) (val : Int) : Result_void × KeyLine :=
  (Result.Ok (), { inst with octave := val })

/-- Embeds cv_line_descriptor_KeyLine_getPropPt_const
(src/unnamed/part_000:354). -/
def cv_line_descriptor_KeyLine_getPropPt_const
    (inst : KeyLine) : Result Point2f × KeyLine :=
  (Result.Ok inst.pt, inst)

/-- Embeds cv_line_descriptor_KeyLine_setPropPt_Point2f
(src/unnamed/part_000:361); the value is passed by pointer in the source and
dereferenced, so the embedding takes it by value. -/
def cv_line_descriptor_KeyLine_setPropPt_Point2f
    (inst : KeyLine) (val : Point2f) : Result_void × KeyLine :=
  (Result.Ok (), { inst with pt := val })

/-- Embeds cv_line_descriptor_KeyLine_getPropResponse_const
(src/unnamed/part_000:368). -/
def cv_line_descriptor_KeyLine_getPropResponse_const
    (inst : KeyLine) : Result CFloat × KeyLine :=
  (Result.Ok inst.response, inst)

/-- Embeds cv_line_descriptor_KeyLine_setPropResponse_float
(src/unnamed/part_000:375). -/
def cv_line_descriptor_KeyLine_setPropResponse_float
    (inst : KeyLine) (val : CFloat) : Result_void × KeyLine :=
  (Result.Ok (), { inst with response := val })

/-- Embeds cv_line_descriptor_KeyLine_getPropSize_const
(src/unnamed/part_000:382). -/
def cv_line_descriptor_KeyLine_getPropSize_const
    (inst : KeyLine) : Result CFloat × KeyLine :=
  (Result.Ok inst.size, inst)

/-- Embeds cv_line_descriptor_KeyLine_setPropSize_float
(src/unnamed/part_000:389). -/
def cv_line_descriptor_KeyLine_setPropSize_float
    (inst : KeyLine) (val : CFloat) : Result_void × KeyLine :=
  (Result.Ok (), { inst with size := val })

/-- Embeds cv_line_descriptor_KeyLine_getPropStartPointX_const
(src/unnamed/part_000:396). -/
def cv_line_descriptor_KeyLine_getPropStartPointX_const
    (inst : KeyLine) : Result CFloat × KeyLine :=
  (Result.Ok inst.startPointX, inst)

/-- Embeds cv_line_descriptor_KeyLine_setPropStartPointX_float
(src/unnamed/part_000:403). -/
def cv_line_descriptor_KeyLine_setPropStartPointX_float
    (inst : KeyLine) (val : CFloat) : Result_void × KeyLine :=
  (Result.Ok (), { inst with startPointX := val })

/-- Embeds cv_line_descriptor_KeyLine_getPropStartPointY_const
(src/unnamed/part_000:410). -/
def cv_line_descriptor_KeyLine_getPropStartPointY_const
    (inst : KeyLine) : Result CFloat × KeyLine :=
  (Result.Ok inst.startPointY, inst)

/-- Embeds cv_line_descriptor_KeyLine_setPropStartPointY_float
(src/unnamed/part_000:417). -/
def cv_line_descriptor_KeyLine_setPropStartPointY_float
    (inst : KeyLine) (val : CFloat) : Result_void × KeyLine :=
  (Result.Ok (), { inst with startPointY := val })

/-- Embeds cv_line_descriptor_KeyLine_getPropEndPointX_const
(src/unnamed/part_000:424). -/
def cv_line_descriptor_KeyLine_getPropEndPointX_const
    (inst : KeyLine) : Result CFloat × KeyLine :=
  (Result.Ok inst.endPointX, inst)

/-- Embeds cv_line_descriptor_KeyLine_setPropEndPointX_float
(src/unnamed/part_000:431). -/
def cv_line_descriptor_KeyLine_setPropEndPointX_float
    (inst : KeyLine) (val : CFloat) : Result_void × KeyLine :=
  (Result.Ok (), { inst with endPointX := val })

/-- Embeds cv_line_descriptor_KeyLine_getPropEndPointY_const
(src/unnamed/part_000:438). -/
def cv_line_descriptor_KeyLine_getPropEndPointY_const
    (inst : KeyLine) : Result CFloat × KeyLine :=
  (Result.Ok inst.endPointY, inst)

/-- Embeds cv_line_descriptor_KeyLine_setPropEndPointY_float
(src/unnamed/part_000:445). -/
def cv_line_descriptor_KeyLine_setPropEndPointY_float
    (inst : KeyLine) (val : CFloat) : Result_void × KeyLine :=
  (Result.Ok (), { inst with endPointY := val })

/-- Embeds cv_line_descriptor_KeyLine_getPropSPointInOctaveX_const
(src/unnamed/part_000:452). -/
def cv_line_descriptor_KeyLine_getPropSPointInOctaveX_const
    (inst : KeyLine) : Result CFloat × KeyLine :=
  (Result.Ok inst.sPointInOctaveX, inst)

/-- Embeds cv_line_descriptor_KeyLine_setPropSPointInOctaveX_float
(src/unnamed/part_000:459). -/
def cv_line_descriptor_KeyLine_setPropSPointInOctaveX_float
    (inst : KeyLine) (val : CFloat) : Result_void × KeyLine :=
  (Result.Ok (), { inst with sPointInOctaveX := val })

/-- Embeds cv_line_descriptor_KeyLine_getPropSPointInOctaveY_const
(src/unnamed/part_000:466). -/
def cv_line_descriptor_KeyLine_getPropSPointInOctaveY_const
    (inst : KeyLine) : Result CFloat × KeyLine :=
  (Result.Ok inst.sPointInOctaveY, inst)

/-- Embeds cv_line_descriptor_KeyLine_setPropSPointInOctaveY_float
(src/unnamed/part_000:473). -/
def cv_line_descriptor_KeyLine_setPropSPointInOctaveY_float
    (inst : KeyLine) (val : CFloat) : Result_void × KeyLine :=
  (Result.Ok (), { inst with sPointInOctaveY := val })

/-- Embeds cv_line_descriptor_KeyLine_getPropEPointInOctaveX_const
(src/unnamed/part_000:480). -/
def cv_line_descriptor_KeyLine_getPropEPointInOctaveX_const
    (inst : KeyLine) : Result CFloat × KeyLine :=
  (Result.Ok inst.ePointInOctaveX, inst)

/-- Embeds cv_line_descriptor_KeyLine_setPropEPointInOctaveX_float
(src/unnamed/part_000:487). -/
def cv_line_descriptor_KeyLine_setPropEPointInOctaveX_float
    (inst : KeyLine) (val : CFloat) : Result_void × KeyLine :=
  (Result.Ok (), { inst with ePointInOctaveX := val })

/-- Embeds cv_line_descriptor_KeyLine_getPropEPointInOctaveY_const
(src/unnamed/part_000:494). -/
def cv_line_descriptor_KeyLine_getPropEPointInOctaveY_const
    (inst : KeyLine) : Result CFloat × KeyLine :=
  (Result.Ok inst.ePointInOctaveY, inst)

/-- Embeds cv_line_descriptor_KeyLine_setPropEPointInOctaveY_float
(src/unnamed/part_000:501). -/
def cv_line_descriptor_KeyLine_setPropEPointInOctaveY_float
    (inst : KeyLine) (val : CFloat) : Result_void × KeyLine :=
  (Result.Ok (), { inst with ePointInOctaveY := val })

/-- Embeds cv_line_descriptor_KeyLine_getPropLineLength_const
(src/unnamed/part_000:508). -/
def cv_line_descriptor_KeyLine_getPropLineLength_const
    (inst : KeyLine) : Result CFloat × KeyLine :=
  (Result.Ok inst.lineLength, inst)

/-- Embeds cv_line_descriptor_KeyLine_setPropLineLength_float
(src/unnamed/part_000:515). -/
def cv_line_descriptor_KeyLine_setPropLineLength_float
    (inst : KeyLine) (val : CFloat) : Result_void × KeyLine :=
  (Result.Ok (), { inst with lineLength := val })

/-- Embeds cv_line_descriptor_KeyLine_getPropNumOfPixels_const
(src/unnamed/part_000:522). -/
def cv_line_descriptor_KeyLine_getPropNumOfPixels_const
    (inst : KeyLine) : Result Int × KeyLine :=
  (Result.Ok inst.numOfPixels, inst)

/-- Embeds cv_line_descriptor_KeyLine_setPropNumOfPixels_int
(src/unnamed/part_000:529). -/
def cv_line_descriptor_KeyLine_setPropNumOfPixels_int
    (inst : KeyLine) (val : Int) : Result_void × KeyLine :=
  (Result.Ok (), { inst with numOfPixels := val })

/-
Guarded entry points.  The native operation invoked inside the try block belongs to
the wrapped library (an opaque dependency, spec section 1), so each embedding takes
it as an explicit behaviour parameter of the appropriate shape.
-/

/-- Embeds cv_ximgproc_FastHoughTransform_const__InputArrayR_const__OutputArrayR_int_int_int_int
(src/bindings/cpp/opencv_32/ximgproc.cpp:6): dereferences src and dst and forwards
the four int parameters to the native cv::ximgproc::FastHoughTransform inside the
try block; Ok() on a normal return, OCVRS_CATCH on a thrown exception.  dst is the
output-array state the native call mutates. -/
def cv_ximgproc_FastHoughTransform_const__InputArrayR_const__OutputArrayR_int_int_int_int
    (native : Mat → Mat → Int → Int → Int → Int → NativeOutcome Unit Mat)
    (src dst : Mat) (dstMatDepth angleRange op makeSkew : Int) :
    Result_void × Mat :=
  match native src dst dstMatDepth angleRange op makeSkew with
  | .ret _ dst1 => (Result.Ok (), dst1)
  | .thr e dst1 => (OCVRS_CATCH Unit e, dst1)

/-- Embeds cv_line_descriptor_drawKeylines_const_MatR_const_vector_KeyLine_R_MatR_const_ScalarR_int
(src/unnamed/part_000:6): forwards image, keylines, outImage, color and flags to the
native cv::line_descriptor::drawKeylines inside the try block; Ok() on a normal
return, OCVRS_CATCH on a thrown exception.  outImage is the state the native call
mutates. -/
def cv_line_descriptor_drawKeylines_const_MatR_const_vector_KeyLine_R_MatR_const_ScalarR_int
    (native : Mat → List KeyLine → Mat → Scalar → Int → NativeOutcome Unit Mat)
    (image : Mat) (keylines : List KeyLine) (outImage : Mat) (color : Scalar)
    (flags : Int) : Result_void × Mat :=
  match native image keylines outImage color flags with
  | .ret _ out1 => (Result.Ok (), out1)
  | .thr e out1 => (OCVRS_CATCH Unit e, out1)

/-- Embeds cv_line_descriptor_BinaryDescriptor_detect_const_MatR_vector_KeyLine_R_const_MatR
(src/unnamed/part_000:100): forwards the instance handle, image, output keyline
vector and mask to the native detect method inside the try block; Ok() on a normal
return, OCVRS_CATCH on a thrown exception.  The keypoints vector is the caller-owned
output sequence the native call mutates. -/
def cv_line_descriptor_BinaryDescriptor_detect_const_MatR_vector_KeyLine_R_const_MatR
    (native : BinaryDescriptor → Mat → List KeyLine → Mat →
      NativeOutcome Unit (List KeyLine))
    (inst : BinaryDescriptor) (image : Mat) (keypoints : List KeyLine) (mask : Mat) :
    Result_void × List KeyLine :=
  match native inst image keypoints mask with
  | .ret _ ks => (Result.Ok (), ks)
  | .thr e ks => (OCVRS_CATCH Unit e, ks)

/-- Embeds cv_ximgproc_computeMSE_const__InputArrayR_const__InputArrayR_Rect
(src/bindings/cpp/opencv_32/ximgproc.cpp:69): forwards GT, src and ROI to the native
cv::ximgproc::computeMSE inside the try block; the double return value is copied by
value into the Ok arm; OCVRS_CATCH on a thrown exception.  The inputs are not
mutated, so the state component is unit. -/
def cv_ximgproc_computeMSE_const__InputArrayR_const__InputArrayR_Rect
    (native : Mat → Mat → Rect → NativeOutcome CDouble Unit)
    (GT src : Mat) (ROI : Rect) : Result CDouble :=
  match native GT src ROI with
  | .ret v _ => Result.Ok v
  | .thr e _ => OCVRS_CATCH CDouble e

/-- cv::ximgproc::DTFilter behind a handle: opaque to this layer (the Ptr smart
pointer the native factory returns is modelled by the object it owns). -/
structure DTFilter where
  token : Nat
deriving DecidableEq

/-- Embeds cv_ximgproc_createDTFilter_const__InputArrayR_double_double_int_int
(src/bindings/cpp/opencv_32/ximgproc.cpp:90): forwards the arguments to the native
cv::ximgproc::createDTFilter inside the try block; on a normal return the returned
Ptr is moved into a newly allocated owned handle which is wrapped in Ok; OCVRS_CATCH
on a thrown exception (in which case nothing is allocated). -/
def cv_ximgproc_createDTFilter_const__InputArrayR_double_double_int_int
    (native : Mat → CDouble → CDouble → Int → Int → NativeOutcome DTFilter Unit)
    (heap : HHeap DTFilter) (guide : Mat) (sigmaSpatial sigmaColor : CDouble)
    (mode numIters : Int) : Result Nat × HHeap DTFilter :=
  match native guide sigmaSpatial sigmaColor mode numIters with
  | .ret v _ =>
      let a := heap.alloc v
      (Result.Ok a.1, a.2)
  | .thr e _ => (OCVRS_CATCH Nat e, heap)

/-
Destruction entry points.  Each body is the single statement
`delete instance;` with return type void: no try block, no envelope.
-/

/-- Embeds cv_BinaryDescriptor_delete (src/unnamed/part_000:20). -/
def cv_BinaryDescriptor_delete (heap : HHeap BinaryDescriptor) (inst : Option Nat) :
    HHeap BinaryDescriptor :=
  cppDelete heap inst

/-- Embeds cv_BinaryDescriptor_Params_delete (src/unnamed/part_000:205). -/
def cv_BinaryDescriptor_Params_delete (heap : HHeap Params) (inst : Option Nat) :
    HHeap Params :=
  cppDelete heap inst

/-- Embeds cv_BinaryDescriptorMatcher_delete (src/unnamed/part_000:229). -/
def cv_BinaryDescriptorMatcher_delete (heap : HHeap BinaryDescriptorMatcher)
    (inst : Option Nat) : HHeap BinaryDescriptorMatcher :=
  cppDelete heap inst

/-- Embeds cv_DrawLinesMatchesFlags_delete (src/unnamed/part_000:309). -/
def cv_DrawLinesMatchesFlags_delete (heap : HHeap DrawLinesMatchesFlags)
    (inst : Option Nat) : HHeap DrawLinesMatchesFlags :=
  cppDelete heap inst

/-- Embeds cv_KeyLine_delete (src/unnamed/part_000:536). -/
def cv_KeyLine_delete (heap : HHeap KeyLine) (inst : Option Nat) :
    HHeap KeyLine :=
  cppDelete heap inst

/-- Embeds cv_LSDDetector_delete (src/unnamed/part_000:574). -/
def cv_LSDDetector_delete (heap : HHeap LSDDetector) (inst : Option Nat) :
    HHeap LSDDetector :=
  cppDelete heap inst

/-
The default-construction plus detection scenario.
-/

/-- Modelled from the spec: the native factory
cv::line_descriptor::BinaryDescriptor::createBinaryDescriptor() belongs to the
wrapped library (an opaque, already-correct dependency per spec section 1, not under
src/).  Per the spec scenario (section 8) it constructs a descriptor extractor with
default parameters and returns normally; the default parameter values are the
wrapped library's documented defaults. -/
def nativeCreateBinaryDescriptor : NativeOutcome BinaryDescriptor Unit :=
  .ret ⟨⟨1, 7, 2, 5⟩⟩ ()

/-- Embeds cv_line_descriptor_BinaryDescriptor_createBinaryDescriptor
(src/unnamed/part_000:30): invokes the native factory inside the try block; on a
normal return the returned Ptr is moved into a newly allocated owned handle wrapped
in Ok; OCVRS_CATCH on a thrown exception. -/
def cv_line_descriptor_BinaryDescriptor_createBinaryDescriptor
    (heap : HHeap BinaryDescriptor) : Result Nat × HHeap BinaryDescriptor :=
  match nativeCreateBinaryDescriptor with
  | .ret v _ =>
      let a := heap.alloc v
      (Result.Ok a.1, a.2)
  | .thr e _ => (OCVRS_CATCH Nat e, heap)

/-- Modelled from the spec: the native method
cv::line_descriptor::BinaryDescriptor::detect lives in the wrapped library (not
under src/).  The spec's concrete scenario (section 8) fixes its behaviour on an
empty input image: detection on an empty image returns normally with zero detected
features, leaving the output vector without any detected keyline.  Behaviour on
non-empty images is left fully abstract (the parameter other). -/
def nativeBinaryDescriptorDetect
    (other : BinaryDescriptor → Mat → List KeyLine → Mat →
      NativeOutcome Unit (List KeyLine))
    (inst : BinaryDescriptor) (image : Mat) (keypoints : List KeyLine) (mask : Mat) :
    NativeOutcome Unit (List KeyLine) :=
  if image.rows = 0 ∧ image.cols = 0 then .ret () keypoints
  else other inst image keypoints mask

/-- The spec scenario of section 8: construct a descriptor extractor with default
parameters through the createBinaryDescriptor entry point (starting from an empty
heap), then run the detect entry point on the constructed handle with an empty
image, a fresh empty output vector and an empty mask; observe the returned tag and
the final output vector. -/
def detectOnEmptyImageScenario
    (other : BinaryDescriptor → Mat → List KeyLine → Mat →
      NativeOutcome Unit (List KeyLine)) : Result_void × List KeyLine :=
  match cv_line_descriptor_BinaryDescriptor_createBinaryDescriptor [] with
  | (Result.Ok h, heap) =>
      match HHeap.get heap h with
      | some bd =>
          cv_line_descriptor_BinaryDescriptor_detect_const_MatR_vector_KeyLine_R_const_MatR
            (nativeBinaryDescriptorDetect other) bd Mat.empty [] Mat.empty
      | none => (Result.Err (-1) "invalid handle", [])
  | (Result.Err c m, _) => (Result.Err c m, [])

/-
Inventory of the boundary surface.

One record per extern entry point of the two source files, in file order
(src/bindings/cpp/opencv_32/ximgproc.cpp then src/unnamed/part_000): the mangled
name, the return shape as written in the C signature, the handle type the entry
point constructs when its body allocates the returned object with new, and the
handle type it destroys when its body is a single delete of the passed pointer.
-/

/-- Return shape of an entry point as written in the C source: a Result envelope
(Result_void or Result of some payload) or bare void. -/
inductive RetTy where
  | envelope
  | bareVoid
deriving DecidableEq

/-- The owned handle types constructed or destroyed by entry points of the two
source files, together with those whose destruction entry points live in the
repository's generated type-support code (the included headers ximgproc_types.hpp
and line_descriptor_types.hpp and the core module, not under src/).  A ptr-prefixed
constructor stands for a handle to a cv::Ptr smart pointer wrapping the named
class; SSS abbreviates SelectiveSearchSegmentation. -/
inductive HTy where
  | binaryDescriptor
  | ptrBinaryDescriptor
  | binaryDescriptorParams
  | binaryDescriptorMatcher
  | ptrBinaryDescriptorMatcher
  | drawLinesMatchesFlags
  | keyLine
  | lsdDetector
  | ptrLSDDetector
  | mat
  | ptrStereoMatcher
  | ptrAdaptiveManifoldFilter
  | ptrDTFilter
  | ptrDisparityWLSFilter
  | ptrEdgeAwareInterpolator
  | ptrFastGlobalSmootherFilter
  | ptrFastLineDetector
  | ptrGuidedFilter
  | ptrRFFeatureGetter
  | ptrStructuredEdgeDetection
  | ptrSuperpixelLSC
  | ptrSuperpixelSEEDS
  | ptrSuperpixelSLIC
  | ptrGraphSegmentation
  | ptrSelectiveSearchSegmentation
  | ptrSSSStrategyColor
  | ptrSSSStrategyFill
  | ptrSSSStrategyMultiple
  | ptrSSSStrategySize
  | ptrSSSStrategyTexture
deriving DecidableEq

/-- One extern entry point of the boundary surface: its mangled name, its return
shape, the handle type it allocates and returns when it is a construction entry
point, and the handle type it deletes when it is a destruction entry point. -/
structure EntryPoint where
  name : String
  ret : RetTy
  constructs : Option HTy
  destroys : Option HTy
deriving DecidableEq

/-- Entry points of the source files, part A (file order continues across the
parts). -/
def srcEntryPointsA : List EntryPoint := [
  ⟨"cv_ximgproc_FastHoughTransform_const__InputArrayR_const__OutputArrayR_int_int_int_int",
    RetTy.envelope, none, none⟩,
  ⟨"cv_ximgproc_GradientDericheX_const__InputArrayR_const__OutputArrayR_double_double",
    RetTy.envelope, none, none⟩,
  ⟨"cv_ximgproc_GradientDericheY_const__InputArrayR_const__OutputArrayR_double_double",
    RetTy.envelope, none, none⟩,
  ⟨"cv_ximgproc_GradientPaillouX_const__InputArrayR_const__OutputArrayR_double_double",
    RetTy.envelope, none, none⟩,
  ⟨"cv_ximgproc_GradientPaillouY_const__InputArrayR_const__OutputArrayR_double_double",
    RetTy.envelope, none, none⟩,
  ⟨"cv_ximgproc_HoughPoint2Line_const_PointR_const__InputArrayR_int_int_int",
    RetTy.envelope, none, none⟩,
  ⟨"cv_ximgproc_amFilter_const__InputArrayR_const__InputArrayR_const__OutputArrayR_double_double_bool",
    RetTy.envelope, none, none⟩,
  ⟨"cv_ximgproc_bilateralTextureFilter_const__InputArrayR_const__OutputArrayR_int_int_double_double",
    RetTy.envelope, none, none⟩,
  ⟨"cv_ximgproc_computeBadPixelPercent_const__InputArrayR_const__InputArrayR_Rect_int",
    RetTy.envelope, none, none⟩,
  ⟨"cv_ximgproc_computeMSE_const__InputArrayR_const__InputArrayR_Rect",
    RetTy.envelope, none, none⟩,
  ⟨"cv_ximgproc_covarianceEstimation_const__InputArrayR_const__OutputArrayR_int_int",
    RetTy.envelope, none, none⟩,
  ⟨"cv_ximgproc_createAMFilter_double_double_bool",
    RetTy.envelope, some HTy.ptrAdaptiveManifoldFilter, none⟩,
  ⟨"cv_ximgproc_createDTFilter_const__InputArrayR_double_double_int_int",
    RetTy.envelope, some HTy.ptrDTFilter, none⟩,
  ⟨"cv_ximgproc_createDisparityWLSFilterGeneric_bool",
    RetTy.envelope, some HTy.ptrDisparityWLSFilter, none⟩,
  ⟨"cv_ximgproc_createDisparityWLSFilter_Ptr_StereoMatcher_",
    RetTy.envelope, some HTy.ptrDisparityWLSFilter, none⟩,
  ⟨"cv_ximgproc_createEdgeAwareInterpolator",
    RetTy.envelope, some HTy.ptrEdgeAwareInterpolator, none⟩,
  ⟨"cv_ximgproc_createFastGlobalSmootherFilter_const__InputArrayR_double_double_double_int",
    RetTy.envelope, some HTy.ptrFastGlobalSmootherFilter, none⟩,
  ⟨"cv_ximgproc_createFastLineDetector_int_float_double_double_int_bool",
    RetTy.envelope, some HTy.ptrFastLineDetector, none⟩,
  ⟨"cv_ximgproc_createGuidedFilter_const__InputArrayR_int_double",
    RetTy.envelope, some HTy.ptrGuidedFilter, none⟩,
  ⟨"cv_ximgproc_createRFFeatureGetter",
    RetTy.envelope, some HTy.ptrRFFeatureGetter, none⟩,
  ⟨"cv_ximgproc_createRightMatcher_Ptr_StereoMatcher_",
    RetTy.envelope, some HTy.ptrStereoMatcher, none⟩,
  ⟨"cv_ximgproc_createStructuredEdgeDetection_const_StringR_Ptr_RFFeatureGetter_",
    RetTy.envelope, some HTy.ptrStructuredEdgeDetection, none⟩,
  ⟨"cv_ximgproc_createSuperpixelLSC_const__InputArrayR_int_float",
    RetTy.envelope, some HTy.ptrSuperpixelLSC, none⟩,
  ⟨"cv_ximgproc_createSuperpixelSEEDS_int_int_int_int_int_int_int_bool",
    RetTy.envelope, some HTy.ptrSuperpixelSEEDS, none⟩,
  ⟨"cv_ximgproc_createSuperpixelSLIC_const__InputArrayR_int_int_float",
    RetTy.envelope, some HTy.ptrSuperpixelSLIC, none⟩,
  ⟨"cv_ximgproc_dtFilter_const__InputArrayR_const__InputArrayR_const__OutputArrayR_double_double_int_int",
    RetTy.envelope, none, none⟩,
  ⟨"cv_ximgproc_fastGlobalSmootherFilter_const__InputArrayR_const__InputArrayR_const__OutputArrayR_double_double_double_int",
    RetTy.envelope, none, none⟩,
  ⟨"cv_ximgproc_getDisparityVis_const__InputArrayR_const__OutputArrayR_double",
    RetTy.envelope, none, none⟩,
  ⟨"cv_ximgproc_guidedFilter_const__InputArrayR_const__InputArrayR_const__OutputArrayR_int_double_int",
    RetTy.envelope, none, none⟩,
  ⟨"cv_ximgproc_jointBilateralFilter_const__InputArrayR_const__InputArrayR_const__OutputArrayR_int_double_double_int",
    RetTy.envelope, none, none⟩,
  ⟨"cv_ximgproc_l0Smooth_const__InputArrayR_const__OutputArrayR_double_double",
    RetTy.envelope, none, none⟩,
  ⟨"cv_ximgproc_niBlackThreshold_const__InputArrayR_const__OutputArrayR_double_int_int_double",
    RetTy.envelope, none, none⟩,
  ⟨"cv_ximgproc_readGT_String_const__OutputArrayR",
    RetTy.envelope, none, none⟩,
  ⟨"cv_ximgproc_rollingGuidanceFilter_const__InputArrayR_const__OutputArrayR_int_double_double_int_int",
    RetTy.envelope, none, none⟩,
  ⟨"cv_ximgproc_segmentation_createGraphSegmentation_double_float_int",
    RetTy.envelope, some HTy.ptrGraphSegmentation, none⟩,
  ⟨"cv_ximgproc_segmentation_createSelectiveSearchSegmentation",
    RetTy.envelope, some HTy.ptrSelectiveSearchSegmentation, none⟩,
  ⟨"cv_ximgproc_segmentation_createSelectiveSearchSegmentationStrategyColor",
    RetTy.envelope, some HTy.ptrSSSStrategyColor, none⟩,
  ⟨"cv_ximgproc_segmentation_createSelectiveSearchSegmentationStrategyFill",
    RetTy.envelope, some HTy.ptrSSSStrategyFill, none⟩,
  ⟨"cv_ximgproc_segmentation_createSelectiveSearchSegmentationStrategyMultiple",
    RetTy.envelope, some HTy.ptrSSSStrategyMultiple, none⟩,
  ⟨"cv_ximgproc_segmentation_createSelectiveSearchSegmentationStrategyMultiple_Ptr_SelectiveSearchSegmentationStrategy_",
    RetTy.envelope, some HTy.ptrSSSStrategyMultiple, none⟩,
  ⟨"cv_ximgproc_segmentation_createSelectiveSearchSegmentationStrategyMultiple_Ptr_SelectiveSearchSegmentationStrategy__Ptr_SelectiveSearchSegmentationStrategy_",
    RetTy.envelope, some HTy.ptrSSSStrategyMultiple, none⟩,
  ⟨"cv_ximgproc_segmentation_createSelectiveSearchSegmentationStrategyMultiple_Ptr_SelectiveSearchSegmentationStrategy__Ptr_SelectiveSearchSegmentationStrategy__Ptr_SelectiveSearchSegmentationStrategy_",
    RetTy.envelope, some HTy.ptrSSSStrategyMultiple, none⟩,
  ⟨"cv_ximgproc_segmentation_createSelectiveSearchSegmentationStrategyMultiple_Ptr_SelectiveSearchSegmentationStrategy__Ptr_SelectiveSearchSegmentationStrategy__Ptr_SelectiveSearchSegmentationStrategy__Ptr_SelectiveSearchSegmentationStrategy_",
    RetTy.envelope, some HTy.ptrSSSStrategyMultiple, none⟩,
  ⟨"cv_ximgproc_segmentation_createSelectiveSearchSegmentationStrategySize",
    RetTy.envelope, some HTy.ptrSSSStrategySize, none⟩
]

/-- Entry points of the source files, part B (file order continues across the
parts). -/
def srcEntryPointsB : List EntryPoint := [
  ⟨"cv_ximgproc_segmentation_createSelectiveSearchSegmentationStrategyTexture",
    RetTy.envelope, some HTy.ptrSSSStrategyTexture, none⟩,
  ⟨"cv_ximgproc_thinning_const__InputArrayR_const__OutputArrayR_int",
    RetTy.envelope, none, none⟩,
  ⟨"cv_ximgproc_weightedMedianFilter_const__InputArrayR_const__InputArrayR_const__OutputArrayR_int_double_WMFWeightType_Mat",
    RetTy.envelope, none, none⟩,
  ⟨"cv_ximgproc_AdaptiveManifoldFilter_filter_const__InputArrayR_const__OutputArrayR_const__InputArrayR",
    RetTy.envelope, none, none⟩,
  ⟨"cv_ximgproc_AdaptiveManifoldFilter_collectGarbage",
    RetTy.envelope, none, none⟩,
  ⟨"cv_ximgproc_AdaptiveManifoldFilter_create",
    RetTy.envelope, some HTy.ptrAdaptiveManifoldFilter, none⟩,
  ⟨"cv_ximgproc_AdaptiveManifoldFilter_getSigmaS_const",
    RetTy.envelope, none, none⟩,
  ⟨"cv_ximgproc_AdaptiveManifoldFilter_setSigmaS_double",
    RetTy.envelope, none, none⟩,
  ⟨"cv_ximgproc_AdaptiveManifoldFilter_getSigmaR_const",
    RetTy.envelope, none, none⟩,
  ⟨"cv_ximgproc_AdaptiveManifoldFilter_setSigmaR_double",
    RetTy.envelope, none, none⟩,
  ⟨"cv_ximgproc_AdaptiveManifoldFilter_getTreeHeight_const",
    RetTy.envelope, none, none⟩,
  ⟨"cv_ximgproc_AdaptiveManifoldFilter_setTreeHeight_int",
    RetTy.envelope, none, none⟩,
  ⟨"cv_ximgproc_AdaptiveManifoldFilter_getPCAIterations_const",
    RetTy.envelope, none, none⟩,
  ⟨"cv_ximgproc_AdaptiveManifoldFilter_setPCAIterations_int",
    RetTy.envelope, none, none⟩,
  ⟨"cv_ximgproc_AdaptiveManifoldFilter_getAdjustOutliers_const",
    RetTy.envelope, none, none⟩,
  ⟨"cv_ximgproc_AdaptiveManifoldFilter_setAdjustOutliers_bool",
    RetTy.envelope, none, none⟩,
  ⟨"cv_ximgproc_AdaptiveManifoldFilter_getUseRNG_const",
    RetTy.envelope, none, none⟩,
  ⟨"cv_ximgproc_AdaptiveManifoldFilter_setUseRNG_bool",
    RetTy.envelope, none, none⟩,
  ⟨"cv_ximgproc_DTFilter_filter_const__InputArrayR_const__OutputArrayR_int",
    RetTy.envelope, none, none⟩,
  ⟨"cv_ximgproc_DisparityFilter_filter_const__InputArrayR_const__InputArrayR_const__OutputArrayR_const__InputArrayR_Rect_const__InputArrayR",
    RetTy.envelope, none, none⟩,
  ⟨"cv_ximgproc_DisparityWLSFilter_getLambda",
    RetTy.envelope, none, none⟩,
  ⟨"cv_ximgproc_DisparityWLSFilter_setLambda_double",
    RetTy.envelope, none, none⟩,
  ⟨"cv_ximgproc_DisparityWLSFilter_getSigmaColor",
    RetTy.envelope, none, none⟩,
  ⟨"cv_ximgproc_DisparityWLSFilter_setSigmaColor_double",
    RetTy.envelope, none, none⟩,
  ⟨"cv_ximgproc_DisparityWLSFilter_getLRCthresh",
    RetTy.envelope, none, none⟩,
  ⟨"cv_ximgproc_DisparityWLSFilter_setLRCthresh_int",
    RetTy.envelope, none, none⟩,
  ⟨"cv_ximgproc_DisparityWLSFilter_getDepthDiscontinuityRadius",
    RetTy.envelope, none, none⟩,
  ⟨"cv_ximgproc_DisparityWLSFilter_setDepthDiscontinuityRadius_int",
    RetTy.envelope, none, none⟩,
  ⟨"cv_ximgproc_DisparityWLSFilter_getConfidenceMap",
    RetTy.envelope, some HTy.mat, none⟩,
  ⟨"cv_ximgproc_DisparityWLSFilter_getROI",
    RetTy.envelope, none, none⟩,
  ⟨"cv_ximgproc_EdgeAwareInterpolator_setK_int",
    RetTy.envelope, none, none⟩,
  ⟨"cv_ximgproc_EdgeAwareInterpolator_getK",
    RetTy.envelope, none, none⟩,
  ⟨"cv_ximgproc_EdgeAwareInterpolator_setSigma_float",
    RetTy.envelope, none, none⟩,
  ⟨"cv_ximgproc_EdgeAwareInterpolator_getSigma",
    RetTy.envelope, none, none⟩,
  ⟨"cv_ximgproc_EdgeAwareInterpolator_setLambda_float",
    RetTy.envelope, none, none⟩,
  ⟨"cv_ximgproc_EdgeAwareInterpolator_getLambda",
    RetTy.envelope, none, none⟩,
  ⟨"cv_ximgproc_EdgeAwareInterpolator_setUsePostProcessing_bool",
    RetTy.envelope, none, none⟩,
  ⟨"cv_ximgproc_EdgeAwareInterpolator_getUsePostProcessing",
    RetTy.envelope, none, none⟩,
  ⟨"cv_ximgproc_EdgeAwareInterpolator_setFGSLambda_float",
    RetTy.envelope, none, none⟩,
  ⟨"cv_ximgproc_EdgeAwareInterpolator_getFGSLambda",
    RetTy.envelope, none, none⟩,
  ⟨"cv_ximgproc_EdgeAwareInterpolator_setFGSSigma_float",
    RetTy.envelope, none, none⟩,
  ⟨"cv_ximgproc_EdgeAwareInterpolator_getFGSSigma",
    RetTy.envelope, none, none⟩,
  ⟨"cv_ximgproc_FastGlobalSmootherFilter_filter_const__InputArrayR_const__OutputArrayR",
    RetTy.envelope, none, none⟩,
  ⟨"cv_ximgproc_FastLineDetector_detect_const__InputArrayR_const__OutputArrayR",
    RetTy.envelope, none, none⟩
]

/-- Entry points of the source files, part C (file order continues across the
parts). -/
def srcEntryPointsC : List EntryPoint := [
  ⟨"cv_ximgproc_FastLineDetector_drawSegments_const__InputOutputArrayR_const__InputArrayR_bool",
    RetTy.envelope, none, none⟩,
  ⟨"cv_ximgproc_GuidedFilter_filter_const__InputArrayR_const__OutputArrayR_int",
    RetTy.envelope, none, none⟩,
  ⟨"cv_ximgproc_RFFeatureGetter_getFeatures_const_const_MatR_MatR_int_int_int_int_int",
    RetTy.envelope, none, none⟩,
  ⟨"cv_ximgproc_SparseMatchInterpolator_interpolate_const__InputArrayR_const__InputArrayR_const__InputArrayR_const__InputArrayR_const__OutputArrayR",
    RetTy.envelope, none, none⟩,
  ⟨"cv_ximgproc_StructuredEdgeDetection_detectEdges_const_const_MatR_MatR",
    RetTy.envelope, none, none⟩,
  ⟨"cv_ximgproc_SuperpixelLSC_getNumberOfSuperpixels_const",
    RetTy.envelope, none, none⟩,
  ⟨"cv_ximgproc_SuperpixelLSC_iterate_int",
    RetTy.envelope, none, none⟩,
  ⟨"cv_ximgproc_SuperpixelLSC_getLabels_const_const__OutputArrayR",
    RetTy.envelope, none, none⟩,
  ⟨"cv_ximgproc_SuperpixelLSC_getLabelContourMask_const_const__OutputArrayR_bool",
    RetTy.envelope, none, none⟩,
  ⟨"cv_ximgproc_SuperpixelLSC_enforceLabelConnectivity_int",
    RetTy.envelope, none, none⟩,
  ⟨"cv_ximgproc_SuperpixelSEEDS_getNumberOfSuperpixels",
    RetTy.envelope, none, none⟩,
  ⟨"cv_ximgproc_SuperpixelSEEDS_iterate_const__InputArrayR_int",
    RetTy.envelope, none, none⟩,
  ⟨"cv_ximgproc_SuperpixelSEEDS_getLabels_const__OutputArrayR",
    RetTy.envelope, none, none⟩,
  ⟨"cv_ximgproc_SuperpixelSEEDS_getLabelContourMask_const__OutputArrayR_bool",
    RetTy.envelope, none, none⟩,
  ⟨"cv_ximgproc_SuperpixelSLIC_getNumberOfSuperpixels_const",
    RetTy.envelope, none, none⟩,
  ⟨"cv_ximgproc_SuperpixelSLIC_iterate_int",
    RetTy.envelope, none, none⟩,
  ⟨"cv_ximgproc_SuperpixelSLIC_getLabels_const_const__OutputArrayR",
    RetTy.envelope, none, none⟩,
  ⟨"cv_ximgproc_SuperpixelSLIC_getLabelContourMask_const_const__OutputArrayR_bool",
    RetTy.envelope, none, none⟩,
  ⟨"cv_ximgproc_SuperpixelSLIC_enforceLabelConnectivity_int",
    RetTy.envelope, none, none⟩,
  ⟨"cv_ximgproc_segmentation_GraphSegmentation_processImage_const__InputArrayR_const__OutputArrayR",
    RetTy.envelope, none, none⟩,
  ⟨"cv_ximgproc_segmentation_GraphSegmentation_setSigma_double",
    RetTy.envelope, none, none⟩,
  ⟨"cv_ximgproc_segmentation_GraphSegmentation_getSigma",
    RetTy.envelope, none, none⟩,
  ⟨"cv_ximgproc_segmentation_GraphSegmentation_setK_float",
    RetTy.envelope, none, none⟩,
  ⟨"cv_ximgproc_segmentation_GraphSegmentation_getK",
    RetTy.envelope, none, none⟩,
  ⟨"cv_ximgproc_segmentation_GraphSegmentation_setMinSize_int",
    RetTy.envelope, none, none⟩,
  ⟨"cv_ximgproc_segmentation_GraphSegmentation_getMinSize",
    RetTy.envelope, none, none⟩,
  ⟨"cv_ximgproc_segmentation_SelectiveSearchSegmentation_setBaseImage_const__InputArrayR",
    RetTy.envelope, none, none⟩,
  ⟨"cv_ximgproc_segmentation_SelectiveSearchSegmentation_switchToSingleStrategy_int_float",
    RetTy.envelope, none, none⟩,
  ⟨"cv_ximgproc_segmentation_SelectiveSearchSegmentation_switchToSelectiveSearchFast_int_int_float",
    RetTy.envelope, none, none⟩,
  ⟨"cv_ximgproc_segmentation_SelectiveSearchSegmentation_switchToSelectiveSearchQuality_int_int_float",
    RetTy.envelope, none, none⟩,
  ⟨"cv_ximgproc_segmentation_SelectiveSearchSegmentation_addImage_const__InputArrayR",
    RetTy.envelope, none, none⟩,
  ⟨"cv_ximgproc_segmentation_SelectiveSearchSegmentation_clearImages",
    RetTy.envelope, none, none⟩,
  ⟨"cv_ximgproc_segmentation_SelectiveSearchSegmentation_addGraphSegmentation_Ptr_GraphSegmentation_",
    RetTy.envelope, none, none⟩,
  ⟨"cv_ximgproc_segmentation_SelectiveSearchSegmentation_clearGraphSegmentations",
    RetTy.envelope, none, none⟩,
  ⟨"cv_ximgproc_segmentation_SelectiveSearchSegmentation_addStrategy_Ptr_SelectiveSearchSegmentationStrategy_",
    RetTy.envelope, none, none⟩,
  ⟨"cv_ximgproc_segmentation_SelectiveSearchSegmentation_clearStrategies",
    RetTy.envelope, none, none⟩,
  ⟨"cv_ximgproc_segmentation_SelectiveSearchSegmentation_process_vector_Rect_R",
    RetTy.envelope, none, none⟩,
  ⟨"cv_ximgproc_segmentation_SelectiveSearchSegmentationStrategy_setImage_const__InputArrayR_const__InputArrayR_const__InputArrayR_int",
    RetTy.envelope, none, none⟩,
  ⟨"cv_ximgproc_segmentation_SelectiveSearchSegmentationStrategy_get_int_int",
    RetTy.envelope, none, none⟩,
  ⟨"cv_ximgproc_segmentation_SelectiveSearchSegmentationStrategy_merge_int_int",
    RetTy.envelope, none, none⟩,
  ⟨"cv_ximgproc_segmentation_SelectiveSearchSegmentationStrategyMultiple_addStrategy_Ptr_SelectiveSearchSegmentationStrategy__float",
    RetTy.envelope, none, none⟩,
  ⟨"cv_ximgproc_segmentation_SelectiveSearchSegmentationStrategyMultiple_clearStrategies",
    RetTy.envelope, none, none⟩,
  ⟨"cv_line_descriptor_drawKeylines_const_MatR_const_vector_KeyLine_R_MatR_const_ScalarR_int",
    RetTy.envelope, none, none⟩,
  ⟨"cv_line_descriptor_drawLineMatches_const_MatR_const_vector_KeyLine_R_const_MatR_const_vector_KeyLine_R_const_vector_DMatch_R_MatR_const_ScalarR_const_ScalarR_const_vector_char_R_int",
    RetTy.envelope, none, none⟩
]

/-- Entry points of the source files, part D (file order continues across the
parts). -/
def srcEntryPointsD : List EntryPoint := [
  ⟨"cv_BinaryDescriptor_delete",
    RetTy.bareVoid, none, some HTy.binaryDescriptor⟩,
  ⟨"cv_line_descriptor_BinaryDescriptor_BinaryDescriptor_const_ParamsR",
    RetTy.envelope, some HTy.binaryDescriptor, none⟩,
  ⟨"cv_line_descriptor_BinaryDescriptor_createBinaryDescriptor",
    RetTy.envelope, some HTy.ptrBinaryDescriptor, none⟩,
  ⟨"cv_line_descriptor_BinaryDescriptor_createBinaryDescriptor_Params",
    RetTy.envelope, some HTy.ptrBinaryDescriptor, none⟩,
  ⟨"cv_line_descriptor_BinaryDescriptor_getNumOfOctaves",
    RetTy.envelope, none, none⟩,
  ⟨"cv_line_descriptor_BinaryDescriptor_setNumOfOctaves_int",
    RetTy.envelope, none, none⟩,
  ⟨"cv_line_descriptor_BinaryDescriptor_getWidthOfBand",
    RetTy.envelope, none, none⟩,
  ⟨"cv_line_descriptor_BinaryDescriptor_setWidthOfBand_int",
    RetTy.envelope, none, none⟩,
  ⟨"cv_line_descriptor_BinaryDescriptor_getReductionRatio",
    RetTy.envelope, none, none⟩,
  ⟨"cv_line_descriptor_BinaryDescriptor_setReductionRatio_int",
    RetTy.envelope, none, none⟩,
  ⟨"cv_line_descriptor_BinaryDescriptor_read_const_FileNodeR",
    RetTy.envelope, none, none⟩,
  ⟨"cv_line_descriptor_BinaryDescriptor_write_const_FileStorageR",
    RetTy.envelope, none, none⟩,
  ⟨"cv_line_descriptor_BinaryDescriptor_detect_const_MatR_vector_KeyLine_R_const_MatR",
    RetTy.envelope, none, none⟩,
  ⟨"cv_line_descriptor_BinaryDescriptor_detect_const_const_vector_Mat_R_vector_vector_KeyLine__R_const_vector_Mat_R",
    RetTy.envelope, none, none⟩,
  ⟨"cv_line_descriptor_BinaryDescriptor_compute_const_const_MatR_vector_KeyLine_R_MatR_bool",
    RetTy.envelope, none, none⟩,
  ⟨"cv_line_descriptor_BinaryDescriptor_compute_const_const_vector_Mat_R_vector_vector_KeyLine__R_vector_Mat_R_bool",
    RetTy.envelope, none, none⟩,
  ⟨"cv_line_descriptor_BinaryDescriptor_descriptorSize_const",
    RetTy.envelope, none, none⟩,
  ⟨"cv_line_descriptor_BinaryDescriptor_descriptorType_const",
    RetTy.envelope, none, none⟩,
  ⟨"cv_line_descriptor_BinaryDescriptor_defaultNorm_const",
    RetTy.envelope, none, none⟩,
  ⟨"cv_line_descriptor_BinaryDescriptor_Params_getPropNumOfOctave__const",
    RetTy.envelope, none, none⟩,
  ⟨"cv_line_descriptor_BinaryDescriptor_Params_setPropNumOfOctave__int",
    RetTy.envelope, none, none⟩,
  ⟨"cv_line_descriptor_BinaryDescriptor_Params_getPropWidthOfBand__const",
    RetTy.envelope, none, none⟩,
  ⟨"cv_line_descriptor_BinaryDescriptor_Params_setPropWidthOfBand__int",
    RetTy.envelope, none, none⟩,
  ⟨"cv_line_descriptor_BinaryDescriptor_Params_getPropReductionRatio_const",
    RetTy.envelope, none, none⟩,
  ⟨"cv_line_descriptor_BinaryDescriptor_Params_setPropReductionRatio_int",
    RetTy.envelope, none, none⟩,
  ⟨"cv_line_descriptor_BinaryDescriptor_Params_getPropKsize__const",
    RetTy.envelope, none, none⟩,
  ⟨"cv_line_descriptor_BinaryDescriptor_Params_setPropKsize__int",
    RetTy.envelope, none, none⟩,
  ⟨"cv_BinaryDescriptor_Params_delete",
    RetTy.bareVoid, none, some HTy.binaryDescriptorParams⟩,
  ⟨"cv_line_descriptor_BinaryDescriptor_Params_Params",
    RetTy.envelope, some HTy.binaryDescriptorParams, none⟩,
  ⟨"cv_line_descriptor_BinaryDescriptor_Params_read_const_FileNodeR",
    RetTy.envelope, none, none⟩,
  ⟨"cv_line_descriptor_BinaryDescriptor_Params_write_const_FileStorageR",
    RetTy.envelope, none, none⟩,
  ⟨"cv_BinaryDescriptorMatcher_delete",
    RetTy.bareVoid, none, some HTy.binaryDescriptorMatcher⟩,
  ⟨"cv_line_descriptor_BinaryDescriptorMatcher_match_const_const_MatR_const_MatR_vector_DMatch_R_const_MatR",
    RetTy.envelope, none, none⟩,
  ⟨"cv_line_descriptor_BinaryDescriptorMatcher_match_const_MatR_vector_DMatch_R_const_vector_Mat_R",
    RetTy.envelope, none, none⟩,
  ⟨"cv_line_descriptor_BinaryDescriptorMatcher_knnMatch_const_const_MatR_const_MatR_vector_vector_DMatch__R_int_const_MatR_bool",
    RetTy.envelope, none, none⟩,
  ⟨"cv_line_descriptor_BinaryDescriptorMatcher_knnMatch_const_MatR_vector_vector_DMatch__R_int_const_vector_Mat_R_bool",
    RetTy.envelope, none, none⟩,
  ⟨"cv_line_descriptor_BinaryDescriptorMatcher_radiusMatch_const_const_MatR_const_MatR_vector_vector_DMatch__R_float_const_MatR_bool",
    RetTy.envelope, none, none⟩,
  ⟨"cv_line_descriptor_BinaryDescriptorMatcher_radiusMatch_const_MatR_vector_vector_DMatch__R_float_const_vector_Mat_R_bool",
    RetTy.envelope, none, none⟩,
  ⟨"cv_line_descriptor_BinaryDescriptorMatcher_add_const_vector_Mat_R",
    RetTy.envelope, none, none⟩,
  ⟨"cv_line_descriptor_BinaryDescriptorMatcher_train",
    RetTy.envelope, none, none⟩,
  ⟨"cv_line_descriptor_BinaryDescriptorMatcher_createBinaryDescriptorMatcher",
    RetTy.envelope, some HTy.ptrBinaryDescriptorMatcher, none⟩,
  ⟨"cv_line_descriptor_BinaryDescriptorMatcher_clear",
    RetTy.envelope, none, none⟩,
  ⟨"cv_line_descriptor_BinaryDescriptorMatcher_BinaryDescriptorMatcher",
    RetTy.envelope, some HTy.binaryDescriptorMatcher, none⟩,
  ⟨"cv_DrawLinesMatchesFlags_delete",
    RetTy.bareVoid, none, some HTy.drawLinesMatchesFlags⟩
]

/-- Entry points of the source files, part E (file order continues across the
parts). -/
def srcEntryPointsE : List EntryPoint := [
  ⟨"cv_line_descriptor_KeyLine_getPropAngle_const",
    RetTy.envelope, none, none⟩,
  ⟨"cv_line_descriptor_KeyLine_setPropAngle_float",
    RetTy.envelope, none, none⟩,
  ⟨"cv_line_descriptor_KeyLine_getPropClass_id_const",
    RetTy.envelope, none, none⟩,
  ⟨"cv_line_descriptor_KeyLine_setPropClass_id_int",
    RetTy.envelope, none, none⟩,
  ⟨"cv_line_descriptor_KeyLine_getPropOctave_const",
    RetTy.envelope, none, none⟩,
  ⟨"cv_line_descriptor_KeyLine_setPropOctave_int",
    RetTy.envelope, none, none⟩,
  ⟨"cv_line_descriptor_KeyLine_getPropPt_const",
    RetTy.envelope, none, none⟩,
  ⟨"cv_line_descriptor_KeyLine_setPropPt_Point2f",
    RetTy.envelope, none, none⟩,
  ⟨"cv_line_descriptor_KeyLine_getPropResponse_const",
    RetTy.envelope, none, none⟩,
  ⟨"cv_line_descriptor_KeyLine_setPropResponse_float",
    RetTy.envelope, none, none⟩,
  ⟨"cv_line_descriptor_KeyLine_getPropSize_const",
    RetTy.envelope, none, none⟩,
  ⟨"cv_line_descriptor_KeyLine_setPropSize_float",
    RetTy.envelope, none, none⟩,
  ⟨"cv_line_descriptor_KeyLine_getPropStartPointX_const",
    RetTy.envelope, none, none⟩,
  ⟨"cv_line_descriptor_KeyLine_setPropStartPointX_float",
    RetTy.envelope, none, none⟩,
  ⟨"cv_line_descriptor_KeyLine_getPropStartPointY_const",
    RetTy.envelope, none, none⟩,
  ⟨"cv_line_descriptor_KeyLine_setPropStartPointY_float",
    RetTy.envelope, none, none⟩,
  ⟨"cv_line_descriptor_KeyLine_getPropEndPointX_const",
    RetTy.envelope, none, none⟩,
  ⟨"cv_line_descriptor_KeyLine_setPropEndPointX_float",
    RetTy.envelope, none, none⟩,
  ⟨"cv_line_descriptor_KeyLine_getPropEndPointY_const",
    RetTy.envelope, none, none⟩,
  ⟨"cv_line_descriptor_KeyLine_setPropEndPointY_float",
    RetTy.envelope, none, none⟩,
  ⟨"cv_line_descriptor_KeyLine_getPropSPointInOctaveX_const",
    RetTy.envelope, none, none⟩,
  ⟨"cv_line_descriptor_KeyLine_setPropSPointInOctaveX_float",
    RetTy.envelope, none, none⟩,
  ⟨"cv_line_descriptor_KeyLine_getPropSPointInOctaveY_const",
    RetTy.envelope, none, none⟩,
  ⟨"cv_line_descriptor_KeyLine_setPropSPointInOctaveY_float",
    RetTy.envelope, none, none⟩,
  ⟨"cv_line_descriptor_KeyLine_getPropEPointInOctaveX_const",
    RetTy.envelope, none, none⟩,
  ⟨"cv_line_descriptor_KeyLine_setPropEPointInOctaveX_float",
    RetTy.envelope, none, none⟩,
  ⟨"cv_line_descriptor_KeyLine_getPropEPointInOctaveY_const",
    RetTy.envelope, none, none⟩,
  ⟨"cv_line_descriptor_KeyLine_setPropEPointInOctaveY_float",
    RetTy.envelope, none, none⟩,
  ⟨"cv_line_descriptor_KeyLine_getPropLineLength_const",
    RetTy.envelope, none, none⟩,
  ⟨"cv_line_descriptor_KeyLine_setPropLineLength_float",
    RetTy.envelope, none, none⟩,
  ⟨"cv_line_descriptor_KeyLine_getPropNumOfPixels_const",
    RetTy.envelope, none, none⟩,
  ⟨"cv_line_descriptor_KeyLine_setPropNumOfPixels_int",
    RetTy.envelope, none, none⟩,
  ⟨"cv_KeyLine_delete",
    RetTy.bareVoid, none, some HTy.keyLine⟩,
  ⟨"cv_line_descriptor_KeyLine_getStartPoint_const",
    RetTy.envelope, none, none⟩,
  ⟨"cv_line_descriptor_KeyLine_getEndPoint_const",
    RetTy.envelope, none, none⟩,
  ⟨"cv_line_descriptor_KeyLine_getStartPointInOctave_const",
    RetTy.envelope, none, none⟩,
  ⟨"cv_line_descriptor_KeyLine_getEndPointInOctave_const",
    RetTy.envelope, none, none⟩,
  ⟨"cv_line_descriptor_KeyLine_KeyLine",
    RetTy.envelope, some HTy.keyLine, none⟩,
  ⟨"cv_LSDDetector_delete",
    RetTy.bareVoid, none, some HTy.lsdDetector⟩,
  ⟨"cv_line_descriptor_LSDDetector_LSDDetector",
    RetTy.envelope, some HTy.lsdDetector, none⟩,
  ⟨"cv_line_descriptor_LSDDetector_createLSDDetector",
    RetTy.envelope, some HTy.ptrLSDDetector, none⟩,
  ⟨"cv_line_descriptor_LSDDetector_detect_const_MatR_vector_KeyLine_R_int_int_const_MatR",
    RetTy.envelope, none, none⟩,
  ⟨"cv_line_descriptor_LSDDetector_detect_const_const_vector_Mat_R_vector_vector_KeyLine__R_int_int_const_vector_Mat_R",
    RetTy.envelope, none, none⟩
]

/-- The entry points of the two source files, transcribed signature by signature
in file order: src/bindings/cpp/opencv_32/ximgproc.cpp then src/unnamed/part_000. -/
def srcEntryPoints : List EntryPoint :=
  srcEntryPointsA ++ srcEntryPointsB ++ srcEntryPointsC ++ srcEntryPointsD ++ srcEntryPointsE

/-- Modelled from the spec: the destruction entry points for the Ptr-wrapped and
Mat handle types returned by the construction entry points above.  They are code of
this repository that is not under src/: both source files include the generated
type-support headers ximgproc_types.hpp and line_descriptor_types.hpp, and the Mat
destructor belongs to the generated core module.  Per the spec (section 2, step 4,
and section 4.2), the layer provides paired constructor/destructor entry points for
every owned native object. -/
def typeSupportDeletes : List EntryPoint := [
  ⟨"cv_PtrOfAdaptiveManifoldFilter_delete", RetTy.bareVoid, none, some HTy.ptrAdaptiveManifoldFilter⟩,
  ⟨"cv_PtrOfDTFilter_delete", RetTy.bareVoid, none, some HTy.ptrDTFilter⟩,
  ⟨"cv_PtrOfDisparityWLSFilter_delete", RetTy.bareVoid, none, some HTy.ptrDisparityWLSFilter⟩,
  ⟨"cv_PtrOfEdgeAwareInterpolator_delete", RetTy.bareVoid, none, some HTy.ptrEdgeAwareInterpolator⟩,
  ⟨"cv_PtrOfFastGlobalSmootherFilter_delete", RetTy.bareVoid, none, some HTy.ptrFastGlobalSmootherFilter⟩,
  ⟨"cv_PtrOfFastLineDetector_delete", RetTy.bareVoid, none, some HTy.ptrFastLineDetector⟩,
  ⟨"cv_PtrOfGuidedFilter_delete", RetTy.bareVoid, none, some HTy.ptrGuidedFilter⟩,
  ⟨"cv_PtrOfRFFeatureGetter_delete", RetTy.bareVoid, none, some HTy.ptrRFFeatureGetter⟩,
  ⟨"cv_PtrOfStereoMatcher_delete", RetTy.bareVoid, none, some HTy.ptrStereoMatcher⟩,
  ⟨"cv_PtrOfStructuredEdgeDetection_delete", RetTy.bareVoid, none, some HTy.ptrStructuredEdgeDetection⟩,
  ⟨"cv_PtrOfSuperpixelLSC_delete", RetTy.bareVoid, none, some HTy.ptrSuperpixelLSC⟩,
  ⟨"cv_PtrOfSuperpixelSEEDS_delete", RetTy.bareVoid, none, some HTy.ptrSuperpixelSEEDS⟩,
  ⟨"cv_PtrOfSuperpixelSLIC_delete", RetTy.bareVoid, none, some HTy.ptrSuperpixelSLIC⟩,
  ⟨"cv_PtrOfGraphSegmentation_delete", RetTy.bareVoid, none, some HTy.ptrGraphSegmentation⟩,
  ⟨"cv_PtrOfSelectiveSearchSegmentation_delete", RetTy.bareVoid, none, some HTy.ptrSelectiveSearchSegmentation⟩,
  ⟨"cv_PtrOfSelectiveSearchSegmentationStrategyColor_delete", RetTy.bareVoid, none, some HTy.ptrSSSStrategyColor⟩,
  ⟨"cv_PtrOfSelectiveSearchSegmentationStrategyFill_delete", RetTy.bareVoid, none, some HTy.ptrSSSStrategyFill⟩,
  ⟨"cv_PtrOfSelectiveSearchSegmentationStrategyMultiple_delete", RetTy.bareVoid, none, some HTy.ptrSSSStrategyMultiple⟩,
  ⟨"cv_PtrOfSelectiveSearchSegmentationStrategySize_delete", RetTy.bareVoid, none, some HTy.ptrSSSStrategySize⟩,
  ⟨"cv_PtrOfSelectiveSearchSegmentationStrategyTexture_delete", RetTy.bareVoid, none, some HTy.ptrSSSStrategyTexture⟩,
  ⟨"cv_PtrOfBinaryDescriptor_delete", RetTy.bareVoid, none, some HTy.ptrBinaryDescriptor⟩,
  ⟨"cv_PtrOfBinaryDescriptorMatcher_delete", RetTy.bareVoid, none, some HTy.ptrBinaryDescriptorMatcher⟩,
  ⟨"cv_PtrOfLSDDetector_delete", RetTy.bareVoid, none, some HTy.ptrLSDDetector⟩,
  ⟨"cv_Mat_delete", RetTy.bareVoid, none, some HTy.mat⟩]

/-- The full boundary surface relevant to handle pairing: the entry points of the
two source files plus the type-support destruction entry points. -/
def boundaryEntryPoints : List EntryPoint :=
  srcEntryPoints ++ typeSupportDeletes

/-
Claim theorems.
-/

/-- C1: For every entry point that wraps a native call, if the native operation
throws an exception during the call, the entry point returns an error-tagged result
to the caller; the exception never propagates past the entry point (the entry point
is a total function into the envelope type), and the returned result is never
success-tagged in that case.  Stated at the two entry points the claim cites -
cv_ximgproc_FastHoughTransform and cv_line_descriptor_BinaryDescriptor_detect -
whose guarded try/Ok/OCVRS_CATCH shape is the one shared by every wrapper in the two
source files. -/
theorem C1_native_throw_yields_error_never_success
    (nFHT : Mat → Mat → Int → Int → Int → Int → NativeOutcome Unit Mat)
    (src dst : Mat) (dstMatDepth angleRange op makeSkew : Int)
    (e1 : CvException) (s1 : Mat)
    (h1 : nFHT src dst dstMatDepth angleRange op makeSkew = NativeOutcome.thr e1 s1)
    (nDet : BinaryDescriptor → Mat → List KeyLine → Mat →
      NativeOutcome Unit (List KeyLine))
    (bd : BinaryDescriptor) (image : Mat) (kps : List KeyLine) (mask : Mat)
    (e2 : CvException) (s2 : List KeyLine)
    (h2 : nDet bd image kps mask = NativeOutcome.thr e2 s2) :
    ((cv_ximgproc_FastHoughTransform_const__InputArrayR_const__OutputArrayR_int_int_int_int
        nFHT src dst dstMatDepth angleRange op makeSkew).1 = Result.Err e1.code e1.msg
      ∧ ∀ u,
        (cv_ximgproc_FastHoughTransform_const__InputArrayR_const__OutputArrayR_int_int_int_int
          nFHT src dst dstMatDepth angleRange op makeSkew).1 ≠ Result.Ok u)
    ∧ ((cv_line_descriptor_BinaryDescriptor_detect_const_MatR_vector_KeyLine_R_const_MatR
        nDet bd image kps mask).1 = Result.Err e2.code e2.msg
      ∧ ∀ u,
        (cv_line_descriptor_BinaryDescriptor_detect_const_MatR_vector_KeyLine_R_const_MatR
          nDet bd image kps mask).1 ≠ Result.Ok u) := by
  unfold cv_ximgproc_FastHoughTransform_const__InputArrayR_const__OutputArrayR_int_int_int_int
    cv_line_descriptor_BinaryDescriptor_detect_const_MatR_vector_KeyLine_R_const_MatR
  rw [h1, h2]
  simp [OCVRS_CATCH]

/-- Witness for C1: concrete natives that throw, applied to concrete arguments. -/
theorem C1_native_throw_yields_error_never_success_witness :
    ((cv_ximgproc_FastHoughTransform_const__InputArrayR_const__OutputArrayR_int_int_int_int
        (fun _ d _ _ _ _ => NativeOutcome.thr ⟨7, "boom"⟩ d)
        Mat.empty Mat.empty 0 1 2 3).1 = Result.Err 7 "boom"
      ∧ ∀ u,
        (cv_ximgproc_FastHoughTransform_const__InputArrayR_const__OutputArrayR_int_int_int_int
          (fun _ d _ _ _ _ => NativeOutcome.thr ⟨7, "boom"⟩ d)
          Mat.empty Mat.empty 0 1 2 3).1 ≠ Result.Ok u)
    ∧ ((cv_line_descriptor_BinaryDescriptor_detect_const_MatR_vector_KeyLine_R_const_MatR
        (fun _ _ k _ => NativeOutcome.thr ⟨9, "fail"⟩ k)
        ⟨⟨1, 7, 2, 5⟩⟩ Mat.empty [] Mat.empty).1 = Result.Err 9 "fail"
      ∧ ∀ u,
        (cv_line_descriptor_BinaryDescriptor_detect_const_MatR_vector_KeyLine_R_const_MatR
          (fun _ _ k _ => NativeOutcome.thr ⟨9, "fail"⟩ k)
          ⟨⟨1, 7, 2, 5⟩⟩ Mat.empty [] Mat.empty).1 ≠ Result.Ok u) :=
  C1_native_throw_yields_error_never_success
    (fun _ d _ _ _ _ => NativeOutcome.thr ⟨7, "boom"⟩ d)
    Mat.empty Mat.empty 0 1 2 3 ⟨7, "boom"⟩ Mat.empty rfl
    (fun _ _ k _ => NativeOutcome.thr ⟨9, "fail"⟩ k)
    ⟨⟨1, 7, 2, 5⟩⟩ Mat.empty [] Mat.empty ⟨9, "fail"⟩ [] rfl

/-- C2 counterexample: the claim that every callable entry point of the boundary
surface returns a tagged Result envelope is false as stated: the destruction entry
point cv_BinaryDescriptor_delete (src/unnamed/part_000:20) has bare return type
void, outside any envelope (likewise the five other delete entry points). -/
theorem C2_every_entry_returns_envelope_counterexample :
    ¬ (∀ ep ∈ srcEntryPoints, ep.ret = RetTy.envelope) := by
  intro h
  have hmem : (⟨"cv_BinaryDescriptor_delete", RetTy.bareVoid, none,
      some HTy.binaryDescriptor⟩ : EntryPoint) ∈ srcEntryPoints := by decide
  exact absurd (h _ hmem) (by decide)

/-- C2 amended: every callable entry point of the boundary surface returns a tagged
Result envelope except the destruction entry points (the delete functions), which
return bare void. -/
theorem C2_every_entry_returns_envelope_except_destructors :
    ∀ ep ∈ srcEntryPoints,
      ep.ret = RetTy.envelope ∨ (ep.destroys.isSome ∧ ep.ret = RetTy.bareVoid) := by
  decide

/-- Witness for the amended C2 at a concrete entry point of the inventory. -/
theorem C2_every_entry_returns_envelope_except_destructors_witness :
    ((⟨"cv_ximgproc_FastHoughTransform_const__InputArrayR_const__OutputArrayR_int_int_int_int",
        RetTy.envelope, none, none⟩ : EntryPoint) ∈ srcEntryPoints)
    ∧ ((RetTy.envelope = RetTy.envelope)
      ∨ ((none : Option HTy).isSome ∧ RetTy.envelope = RetTy.bareVoid)) :=
  ⟨by decide,
    C2_every_entry_returns_envelope_except_destructors
      (⟨"cv_ximgproc_FastHoughTransform_const__InputArrayR_const__OutputArrayR_int_int_int_int",
        RetTy.envelope, none, none⟩ : EntryPoint) (by decide)⟩

/-- C3: for every construction entry point of the source files (one whose body
allocates the returned owned handle with new), the boundary surface also provides a
destruction entry point taking a handle of the same type.  The destructors for the
plain class handles are in src/unnamed/part_000 itself; those for the Ptr-wrapped
and Mat handles are in the repository's generated type-support code, modelled from
the spec above. -/
theorem C3_every_constructor_has_paired_destructor :
    ∀ ep ∈ srcEntryPoints, ep.constructs.isSome = true →
      ∃ d ∈ boundaryEntryPoints, d.destroys = ep.constructs := by
  decide

/-- Witness for C3 at the construction entry point the claim cites,
cv_ximgproc_createAMFilter (ximgproc.cpp:83). -/
theorem C3_every_constructor_has_paired_destructor_witness :
    ((⟨"cv_ximgproc_createAMFilter_double_double_bool", RetTy.envelope,
        some HTy.ptrAdaptiveManifoldFilter, none⟩ : EntryPoint) ∈ srcEntryPoints)
    ∧ ∃ d ∈ boundaryEntryPoints, d.destroys = some HTy.ptrAdaptiveManifoldFilter :=
  ⟨by decide,
    C3_every_constructor_has_paired_destructor
      (⟨"cv_ximgproc_createAMFilter_double_double_bool", RetTy.envelope,
        some HTy.ptrAdaptiveManifoldFilter, none⟩ : EntryPoint)
      (by decide) (by decide)⟩

/-- C4: when the native operation returns normally, the entry point returns a
success-tagged result whose payload equals the native return value: copied by value
into the envelope for plain values (cv_ximgproc_computeMSE, a double), or a newly
allocated owned handle holding the moved native return value for heap objects
(cv_ximgproc_createDTFilter): the returned handle is fresh (unallocated in the
pre-call heap) and afterwards holds exactly the native return value. -/
theorem C4_success_payload_matches_native_return
    (nMSE : Mat → Mat → Rect → NativeOutcome CDouble Unit)
    (GT src : Mat) (ROI : Rect) (v : CDouble)
    (h1 : nMSE GT src ROI = NativeOutcome.ret v ())
    (nDTF : Mat → CDouble → CDouble → Int → Int → NativeOutcome DTFilter Unit)
    (heap : HHeap DTFilter) (guide : Mat) (sigmaSpatial sigmaColor : CDouble)
    (mode numIters : Int) (w : DTFilter)
    (h2 : nDTF guide sigmaSpatial sigmaColor mode numIters = NativeOutcome.ret w ()) :
    cv_ximgproc_computeMSE_const__InputArrayR_const__InputArrayR_Rect nMSE GT src ROI
        = Result.Ok v
    ∧ (cv_ximgproc_createDTFilter_const__InputArrayR_double_double_int_int
        nDTF heap guide sigmaSpatial sigmaColor mode numIters).1
          = Result.Ok heap.length
    ∧ HHeap.get heap heap.length = none
    ∧ HHeap.get (cv_ximgproc_createDTFilter_const__InputArrayR_double_double_int_int
        nDTF heap guide sigmaSpatial sigmaColor mode numIters).2 heap.length
          = some w := by
  unfold cv_ximgproc_computeMSE_const__InputArrayR_const__InputArrayR_Rect
    cv_ximgproc_createDTFilter_const__InputArrayR_double_double_int_int
  rw [h1, h2]
  refine ⟨rfl, rfl, ?_, ?_⟩
  · simp [HHeap.get, List.get?_eq_none]
  · simp [HHeap.get, HHeap.alloc, List.getElem?_concat_length]

/-- Witness for C4: concrete natives returning fixed values, on an empty heap. -/
theorem C4_success_payload_matches_native_return_witness :
    cv_ximgproc_computeMSE_const__InputArrayR_const__InputArrayR_Rect
        (fun _ _ _ => NativeOutcome.ret ⟨5⟩ ()) Mat.empty Mat.empty ⟨0, 0, 2, 2⟩
        = Result.Ok ⟨5⟩
    ∧ (cv_ximgproc_createDTFilter_const__InputArrayR_double_double_int_int
        (fun _ _ _ _ _ => NativeOutcome.ret ⟨11⟩ ()) [] Mat.empty ⟨1⟩ ⟨2⟩ 0 3).1
          = Result.Ok (List.length ([] : HHeap DTFilter))
    ∧ HHeap.get ([] : HHeap DTFilter) (List.length ([] : HHeap DTFilter)) = none
    ∧ HHeap.get (cv_ximgproc_createDTFilter_const__InputArrayR_double_double_int_int
        (fun _ _ _ _ _ => NativeOutcome.ret ⟨11⟩ ()) [] Mat.empty ⟨1⟩ ⟨2⟩ 0 3).2
          (List.length ([] : HHeap DTFilter)) = some ⟨11⟩ :=
  C4_success_payload_matches_native_return
    (fun _ _ _ => NativeOutcome.ret ⟨5⟩ ()) Mat.empty Mat.empty ⟨0, 0, 2, 2⟩ ⟨5⟩ rfl
    (fun _ _ _ _ _ => NativeOutcome.ret ⟨11⟩ ()) [] Mat.empty ⟨1⟩ ⟨2⟩ 0 3 ⟨11⟩ rfl

/-- C5: constructing a descriptor extractor with default parameters through the
createBinaryDescriptor entry point and then running the detection entry point on an
empty image returns a success-tagged result with zero detected features, whatever
the native detector does on non-empty images. -/
theorem C5_default_construct_detect_empty_image_succeeds_with_zero_features :
    ∀ other, detectOnEmptyImageScenario other = (Result.Ok (), []) := by
  intro other
  rfl

/-- C6: for every direct-field accessor pair of the source files (the four Params
pairs and the sixteen KeyLine pairs), calling the set entry point with a value and
then the get entry point on the same handle returns a success-tagged result whose
payload equals that value. -/
theorem C6_set_then_get_roundtrip
    (p : Params) (kl : KeyLine) (i : Int) (f : CFloat) (q : Point2f) :
    (cv_line_descriptor_BinaryDescriptor_Params_getPropNumOfOctave__const
        (cv_line_descriptor_BinaryDescriptor_Params_setPropNumOfOctave__int p i).2).1
          = Result.Ok i
    ∧ (cv_line_descriptor_BinaryDescriptor_Params_getPropWidthOfBand__const
        (cv_line_descriptor_BinaryDescriptor_Params_setPropWidthOfBand__int p i).2).1
          = Result.Ok i
    ∧ (cv_line_descriptor_BinaryDescriptor_Params_getPropReductionRatio_const
        (cv_line_descriptor_BinaryDescriptor_Params_setPropReductionRatio_int p i).2).1
          = Result.Ok i
    ∧ (cv_line_descriptor_BinaryDescriptor_Params_getPropKsize__const
        (cv_line_descriptor_BinaryDescriptor_Params_setPropKsize__int p i).2).1
          = Result.Ok i
    ∧ (cv_line_descriptor_KeyLine_getPropAngle_const
        (cv_line_descriptor_KeyLine_setPropAngle_float kl f).2).1 = Result.Ok f
    ∧ (cv_line_descriptor_KeyLine_getPropClass_id_const
        (cv_line_descriptor_KeyLine_setPropClass_id_int kl i).2).1 = Result.Ok i
    ∧ (cv_line_descriptor_KeyLine_getPropOctave_const
        (cv_line_descriptor_KeyLine_setPropOctave_int kl i).2).1 = Result.Ok i
    ∧ (cv_line_descriptor_KeyLine_getPropPt_const
        (cv_line_descriptor_KeyLine_setPropPt_Point2f kl q).2).1 = Result.Ok q
    ∧ (cv_line_descriptor_KeyLine_getPropResponse_const
        (cv_line_descriptor_KeyLine_setPropResponse_float kl f).2).1 = Result.Ok f
    ∧ (cv_line_descriptor_KeyLine_getPropSize_const
        (cv_line_descriptor_KeyLine_setPropSize_float kl f).2).1 = Result.Ok f
    ∧ (cv_line_descriptor_KeyLine_getPropStartPointX_const
        (cv_line_descriptor_KeyLine_setPropStartPointX_float kl f).2).1 = Result.Ok f
    ∧ (cv_line_descriptor_KeyLine_getPropStartPointY_const
        (cv_line_descriptor_KeyLine_setPropStartPointY_float kl f).2).1 = Result.Ok f
    ∧ (cv_line_descriptor_KeyLine_getPropEndPointX_const
        (cv_line_descriptor_KeyLine_setPropEndPointX_float kl f).2).1 = Result.Ok f
    ∧ (cv_line_descriptor_KeyLine_getPropEndPointY_const
        (cv_line_descriptor_KeyLine_setPropEndPointY_float kl f).2).1 = Result.Ok f
    ∧ (cv_line_descriptor_KeyLine_getPropSPointInOctaveX_const
        (cv_line_descriptor_KeyLine_setPropSPointInOctaveX_float kl f).2).1 = Result.Ok f
    ∧ (cv_line_descriptor_KeyLine_getPropSPointInOctaveY_const
        (cv_line_descriptor_KeyLine_setPropSPointInOctaveY_float kl f).2).1 = Result.Ok f
    ∧ (cv_line_descriptor_KeyLine_getPropEPointInOctaveX_const
        (cv_line_descriptor_KeyLine_setPropEPointInOctaveX_float kl f).2).1 = Result.Ok f
    ∧ (cv_line_descriptor_KeyLine_getPropEPointInOctaveY_const
        (cv_line_descriptor_KeyLine_setPropEPointInOctaveY_float kl f).2).1 = Result.Ok f
    ∧ (cv_line_descriptor_KeyLine_getPropLineLength_const
        (cv_line_descriptor_KeyLine_setPropLineLength_float kl f).2).1 = Result.Ok f
    ∧ (cv_line_descriptor_KeyLine_getPropNumOfPixels_const
        (cv_line_descriptor_KeyLine_setPropNumOfPixels_int kl i).2).1 = Result.Ok i := by
  repeat constructor

/-- C7: field accessor entry points never fail except through the uniform
exception-to-error conversion.  At the accessors the claim cites: a get invoked on a
valid non-null handle performs a plain field read, which cannot throw, so the result
is the success arm carrying the field value and the error branch is never taken; a
set returns a value of the envelope type, hence only success or error. -/
theorem C7_field_accessors_never_fail
    (kl : KeyLine) (p : Params) (f : CFloat) (i : Int) :
    (cv_line_descriptor_KeyLine_getPropAngle_const kl = (Result.Ok kl.angle, kl)
      ∧ (cv_line_descriptor_KeyLine_getPropAngle_const kl).1.isErr = false)
    ∧ (cv_line_descriptor_BinaryDescriptor_Params_getPropWidthOfBand__const p
          = (Result.Ok p.widthOfBand_, p)
      ∧ (cv_line_descriptor_BinaryDescriptor_Params_getPropWidthOfBand__const p).1.isErr
          = false)
    ∧ ((cv_line_descriptor_KeyLine_setPropAngle_float kl f).1 = Result.Ok ()
      ∨ ∃ c m, (cv_line_descriptor_KeyLine_setPropAngle_float kl f).1 = Result.Err c m)
    ∧ ((cv_line_descriptor_BinaryDescriptor_Params_setPropWidthOfBand__int p i).1
          = Result.Ok ()
      ∨ ∃ c m, (cv_line_descriptor_BinaryDescriptor_Params_setPropWidthOfBand__int p i).1
          = Result.Err c m) :=
  ⟨⟨rfl, rfl⟩, ⟨rfl, rfl⟩, Or.inl rfl, Or.inl rfl⟩

/-- C8: every result envelope returned by an entry point has exactly one arm
populated - it is success-tagged or error-tagged, never both and never neither -
and when the error arm is populated it carries the classification code and the
message captured from the native exception.  Stated at the two entry points the
claim cites, cv_line_descriptor_drawKeylines and cv_ximgproc_FastHoughTransform. -/
theorem C8_envelope_exactly_one_arm :
    (∀ (n : Mat → List KeyLine → Mat → Scalar → Int → NativeOutcome Unit Mat)
        image keylines outImage color flags,
      ((cv_line_descriptor_drawKeylines_const_MatR_const_vector_KeyLine_R_MatR_const_ScalarR_int
          n image keylines outImage color flags).1.isOk = true
        ∧ (cv_line_descriptor_drawKeylines_const_MatR_const_vector_KeyLine_R_MatR_const_ScalarR_int
          n image keylines outImage color flags).1.isErr = false)
      ∨ ((cv_line_descriptor_drawKeylines_const_MatR_const_vector_KeyLine_R_MatR_const_ScalarR_int
          n image keylines outImage color flags).1.isOk = false
        ∧ (cv_line_descriptor_drawKeylines_const_MatR_const_vector_KeyLine_R_MatR_const_ScalarR_int
          n image keylines outImage color flags).1.isErr = true))
    ∧ (∀ n image keylines outImage color flags (e : CvException) (s : Mat),
        n image keylines outImage color flags = NativeOutcome.thr e s →
        (cv_line_descriptor_drawKeylines_const_MatR_const_vector_KeyLine_R_MatR_const_ScalarR_int
          n image keylines outImage color flags).1 = Result.Err e.code e.msg)
    ∧ (∀ (n : Mat → Mat → Int → Int → Int → Int → NativeOutcome Unit Mat)
        src dst p1 p2 p3 p4,
      ((cv_ximgproc_FastHoughTransform_const__InputArrayR_const__OutputArrayR_int_int_int_int
          n src dst p1 p2 p3 p4).1.isOk = true
        ∧ (cv_ximgproc_FastHoughTransform_const__InputArrayR_const__OutputArrayR_int_int_int_int
          n src dst p1 p2 p3 p4).1.isErr = false)
      ∨ ((cv_ximgproc_FastHoughTransform_const__InputArrayR_const__OutputArrayR_int_int_int_int
          n src dst p1 p2 p3 p4).1.isOk = false
        ∧ (cv_ximgproc_FastHoughTransform_const__InputArrayR_const__OutputArrayR_int_int_int_int
          n src dst p1 p2 p3 p4).1.isErr = true))
    ∧ (∀ n src dst p1 p2 p3 p4 (e : CvException) (s : Mat),
        n src dst p1 p2 p3 p4 = NativeOutcome.thr e s →
        (cv_ximgproc_FastHoughTransform_const__InputArrayR_const__OutputArrayR_int_int_int_int
          n src dst p1 p2 p3 p4).1 = Result.Err e.code e.msg) := by
  refine ⟨?_, ?_, ?_, ?_⟩
  · intro n image keylines outImage color flags
    rcases h : n image keylines outImage color flags with ⟨u, s⟩ | ⟨e, s⟩ <;>
      simp [cv_line_descriptor_drawKeylines_const_MatR_const_vector_KeyLine_R_MatR_const_ScalarR_int,
        h, OCVRS_CATCH, Result.isOk, Result.isErr]
  · intro n image keylines outImage color flags e s h
    simp [cv_line_descriptor_drawKeylines_const_MatR_const_vector_KeyLine_R_MatR_const_ScalarR_int,
      h, OCVRS_CATCH]
  · intro n src dst p1 p2 p3 p4
    rcases h : n src dst p1 p2 p3 p4 with ⟨u, s⟩ | ⟨e, s⟩ <;>
      simp [cv_ximgproc_FastHoughTransform_const__InputArrayR_const__OutputArrayR_int_int_int_int,
        h, OCVRS_CATCH, Result.isOk, Result.isErr]
  · intro n src dst p1 p2 p3 p4 e s h
    simp [cv_ximgproc_FastHoughTransform_const__InputArrayR_const__OutputArrayR_int_int_int_int,
      h, OCVRS_CATCH]

/-- Witness for C8: the error arm built at concrete throwing natives carries the
captured classification and message. -/
theorem C8_envelope_exactly_one_arm_witness :
    (cv_line_descriptor_drawKeylines_const_MatR_const_vector_KeyLine_R_MatR_const_ScalarR_int
        (fun _ _ o _ _ => NativeOutcome.thr ⟨2, "bad"⟩ o)
        Mat.empty [] Mat.empty ⟨⟨0⟩, ⟨0⟩, ⟨0⟩, ⟨0⟩⟩ 0).1 = Result.Err 2 "bad"
    ∧ (cv_ximgproc_FastHoughTransform_const__InputArrayR_const__OutputArrayR_int_int_int_int
        (fun _ d _ _ _ _ => NativeOutcome.thr ⟨4, "worse"⟩ d)
        Mat.empty Mat.empty 0 0 0 0).1 = Result.Err 4 "worse" :=
  ⟨C8_envelope_exactly_one_arm.2.1 _ Mat.empty [] Mat.empty ⟨⟨0⟩, ⟨0⟩, ⟨0⟩, ⟨0⟩⟩ 0
      ⟨2, "bad"⟩ Mat.empty rfl,
    C8_envelope_exactly_one_arm.2.2.2 _ Mat.empty Mat.empty 0 0 0 0
      ⟨4, "worse"⟩ Mat.empty rfl⟩

/-- C9: every destruction entry point of the source files, called with a null
handle, performs no deallocation and returns normally: the heap is unchanged, since
each destructor body is a single C++ delete of the passed pointer and a
delete-expression on a null pointer is defined to do nothing. -/
theorem C9_delete_null_handle_is_noop :
    (∀ heap : HHeap BinaryDescriptor, cv_BinaryDescriptor_delete heap none = heap)
    ∧ (∀ heap : HHeap Params, cv_BinaryDescriptor_Params_delete heap none = heap)
    ∧ (∀ heap : HHeap BinaryDescriptorMatcher,
        cv_BinaryDescriptorMatcher_delete heap none = heap)
    ∧ (∀ heap : HHeap DrawLinesMatchesFlags,
        cv_DrawLinesMatchesFlags_delete heap none = heap)
    ∧ (∀ heap : HHeap KeyLine, cv_KeyLine_delete heap none = heap)
    ∧ (∀ heap : HHeap LSDDetector, cv_LSDDetector_delete heap none = heap) :=
  ⟨fun _ => rfl, fun _ => rfl, fun _ => rfl, fun _ => rfl, fun _ => rfl, fun _ => rfl⟩

/-- C10: on a valid non-null handle, every direct-field get accessor leaves the
object entirely unchanged, and a set accessor for a field changes only that field.
The two accessors the claim cites (setPropWidthOfBand__int on Params and
setPropAngle_float on KeyLine) are stated field by field; the remaining setters are
stated as the one-field record update, and all twenty getters as state-preserving. -/
theorem C10_accessor_frame_conditions
    (p : Params) (kl : KeyLine) (i : Int) (f : CFloat) (q : Point2f) :
    (cv_line_descriptor_BinaryDescriptor_Params_getPropNumOfOctave__const p).2 = p
    ∧ (cv_line_descriptor_BinaryDescriptor_Params_getPropWidthOfBand__const p).2 = p
    ∧ (cv_line_descriptor_BinaryDescriptor_Params_getPropReductionRatio_const p).2 = p
    ∧ (cv_line_descriptor_BinaryDescriptor_Params_getPropKsize__const p).2 = p
    ∧ (cv_line_descriptor_KeyLine_getPropAngle_const kl).2 = kl
    ∧ (cv_line_descriptor_KeyLine_getPropClass_id_const kl).2 = kl
    ∧ (cv_line_descriptor_KeyLine_getPropOctave_const kl).2 = kl
    ∧ (cv_line_descriptor_KeyLine_getPropPt_const kl).2 = kl
    ∧ (cv_line_descriptor_KeyLine_getPropResponse_const kl).2 = kl
    ∧ (cv_line_descriptor_KeyLine_getPropSize_const kl).2 = kl
    ∧ (cv_line_descriptor_KeyLine_getPropStartPointX_const kl).2 = kl
    ∧ (cv_line_descriptor_KeyLine_getPropStartPointY_const kl).2 = kl
    ∧ (cv_line_descriptor_KeyLine_getPropEndPointX_const kl).2 = kl
    ∧ (cv_line_descriptor_KeyLine_getPropEndPointY_const kl).2 = kl
    ∧ (cv_line_descriptor_KeyLine_getPropSPointInOctaveX_const kl).2 = kl
    ∧ (cv_line_descriptor_KeyLine_getPropSPointInOctaveY_const kl).2 = kl
    ∧ (cv_line_descriptor_KeyLine_getPropEPointInOctaveX_const kl).2 = kl
    ∧ (cv_line_descriptor_KeyLine_getPropEPointInOctaveY_const kl).2 = kl
    ∧ (cv_line_descriptor_KeyLine_getPropLineLength_const kl).2 = kl
    ∧ (cv_line_descriptor_KeyLine_getPropNumOfPixels_const kl).2 = kl
    ∧ ((cv_line_descriptor_BinaryDescriptor_Params_setPropWidthOfBand__int p i).2.numOfOctave_
          = p.numOfOctave_
      ∧ (cv_line_descriptor_BinaryDescriptor_Params_setPropWidthOfBand__int p i).2.reductionRatio
          = p.reductionRatio
      ∧ (cv_line_descriptor_BinaryDescriptor_Params_setPropWidthOfBand__int p i).2.ksize_
          = p.ksize_
      ∧ (cv_line_descriptor_BinaryDescriptor_Params_setPropWidthOfBand__int p i).2.widthOfBand_
          = i)
    ∧ (cv_line_descriptor_BinaryDescriptor_Params_setPropNumOfOctave__int p i).2
        = { p with numOfOctave_ := i }
    ∧ (cv_line_descriptor_BinaryDescriptor_Params_setPropReductionRatio_int p i).2
        = { p with reductionRatio := i }
    ∧ (cv_line_descriptor_BinaryDescriptor_Params_setPropKsize__int p i).2
        = { p with ksize_ := i }
    ∧ ((cv_line_descriptor_KeyLine_setPropAngle_float kl f).2.class_id = kl.class_id
      ∧ (cv_line_descriptor_KeyLine_setPropAngle_float kl f).2.octave = kl.octave
      ∧ (cv_line_descriptor_KeyLine_setPropAngle_float kl f).2.pt = kl.pt
      ∧ (cv_line_descriptor_KeyLine_setPropAngle_float kl f).2.response = kl.response
      ∧ (cv_line_descriptor_KeyLine_setPropAngle_float kl f).2.size = kl.size
      ∧ (cv_line_descriptor_KeyLine_setPropAngle_float kl f).2.startPointX = kl.startPointX
      ∧ (cv_line_descriptor_KeyLine_setPropAngle_float kl f).2.startPointY = kl.startPointY
      ∧ (cv_line_descriptor_KeyLine_setPropAngle_float kl f).2.endPointX = kl.endPointX
      ∧ (cv_line_descriptor_KeyLine_setPropAngle_float kl f).2.endPointY = kl.endPointY
      ∧ (cv_line_descriptor_KeyLine_setPropAngle_float kl f).2.sPointInOctaveX
          = kl.sPointInOctaveX
      ∧ (cv_line_descriptor_KeyLine_setPropAngle_float kl f).2.sPointInOctaveY
          = kl.sPointInOctaveY
      ∧ (cv_line_descriptor_KeyLine_setPropAngle_float kl f).2.ePointInOctaveX
          = kl.ePointInOctaveX
      ∧ (cv_line_descriptor_KeyLine_setPropAngle_float kl f).2.ePointInOctaveY
          = kl.ePointInOctaveY
      ∧ (cv_line_descriptor_KeyLine_setPropAngle_float kl f).2.lineLength = kl.lineLength
      ∧ (cv_line_descriptor_KeyLine_setPropAngle_float kl f).2.numOfPixels = kl.numOfPixels
      ∧ (cv_line_descriptor_KeyLine_setPropAngle_float kl f).2.angle = f)
    ∧ (cv_line_descriptor_KeyLine_setPropClass_id_int kl i).2 = { kl with class_id := i }
    ∧ (cv_line_descriptor_KeyLine_setPropOctave_int kl i).2 = { kl with octave := i }
    ∧ (cv_line_descriptor_KeyLine_setPropPt_Point2f kl q).2 = { kl with pt := q }
    ∧ (cv_line_descriptor_KeyLine_setPropResponse_float kl f).2 = { kl with response := f }
    ∧ (cv_line_descriptor_KeyLine_setPropSize_float kl f).2 = { kl with size := f }
    ∧ (cv_line_descriptor_KeyLine_setPropStartPointX_float kl f).2
        = { kl with startPointX := f }
    ∧ (cv_line_descriptor_KeyLine_setPropStartPointY_float kl f).2
        = { kl with startPointY := f }
    ∧ (cv_line_descriptor_KeyLine_setPropEndPointX_float kl f).2
        = { kl with endPointX := f }
    ∧ (cv_line_descriptor_KeyLine_setPropEndPointY_float kl f).2
        = { kl with endPointY := f }
    ∧ (cv_line_descriptor_KeyLine_setPropSPointInOctaveX_float kl f).2
        = { kl with sPointInOctaveX := f }
    ∧ (cv_line_descriptor_KeyLine_setPropSPointInOctaveY_float kl f).2
        = { kl with sPointInOctaveY := f }
    ∧ (cv_line_descriptor_KeyLine_setPropEPointInOctaveX_float kl f).2
        = { kl with ePointInOctaveX := f }
    ∧ (cv_line_descriptor_KeyLine_setPropEPointInOctaveY_float kl f).2
        = { kl with ePointInOctaveY := f }
    ∧ (cv_line_descriptor_KeyLine_setPropLineLength_float kl f).2
        = { kl with lineLength := f }
    ∧ (cv_line_descriptor_KeyLine_setPropNumOfPixels_int kl i).2
        = { kl with numOfPixels := i } := by
  repeat constructor

end RustOpenCV
